import Mathlib

/-!
Verification of the real-time voice-activity classification and session-buffering
pipeline of the AI-Convo web application backend
(`backend/app/services/audio_service.py` and
`backend/app/services/streaming_service.py`).

Modelling conventions:
* Python `bytes` are `List Nat` (each entry one byte value);
  16-bit signed little-endian samples are `Int`.
* Python `float` quantities (energies, noise floor, timestamps, durations)
  are modelled as exact rationals `ℚ`.  The one floating-point operation with
  no rational counterpart, `np.sqrt` in the RMS computation
  (`audio_service.py` line 125), is abstracted: the chunk's RMS energy is
  passed to the processing step as an explicit `rms : ℚ` argument, and all
  uses of that value (the energy gate and the noise-floor update) are
  translated literally from the source.
* The external `webrtcvad` engine (`self.vad.is_speech`) is modelled as an
  oracle `vad : Nat → Option Bool` indexed by invocation count:
  `some true` = the call returned speech, `some false` = it returned
  non-speech, `none` = the call raised an exception.
* Connection-level dicts (`active_connections[cid]`) become a `Session`
  structure; mutation becomes explicit state passing.
-/

namespace AIConvo

/-! ### Configuration constants (`config.py`, defaults of `Settings`) -/

/-- `settings.sample_rate` default (config.py line 76). -/
def sample_rate : Nat := 16000

/-- `settings.vad_speech_threshold` default 0.5 (config.py line 80). -/
def vad_speech_threshold : ℚ := 1/2

/-- `vad_frame_duration_ms = 20` (audio_service.py line 109). -/
def vad_frame_duration_ms : Nat := 20

/-- `frame_size = int(sample_rate * vad_frame_duration_ms / 1000)`
(audio_service.py line 110), evaluated at the configured 16 kHz rate. -/
def frame_size : Nat := sample_rate * vad_frame_duration_ms / 1000

/-- `self.max_noise_samples = 100` (audio_service.py line 32). -/
def max_noise_samples : Nat := 100

/-- `self.adaptive_threshold_multiplier = 2.5` (audio_service.py line 33). -/
def adaptive_threshold_multiplier : ℚ := 5/2

/-! ### Byte / sample layer (audio_service.py lines 112-118) -/

/-- Padding of an odd-length byte buffer with one zero byte
(`audio_data = audio_data + b'\x00'`, audio_service.py lines 114-116). -/
def padBytes (bs : List Nat) : List Nat :=
  if bs.length % 2 = 1 then bs ++ [0] else bs

/-- Interpretation of a little-endian byte pair as one signed 16-bit sample
(the element type of `np.frombuffer(audio_data, dtype=np.int16)`). -/
def toInt16 (lo hi : Nat) : Int :=
  let v : Nat := lo % 256 + 256 * (hi % 256)
  if v < 32768 then (v : Int) else (v : Int) - 65536

/-- `np.frombuffer(audio_data, dtype=np.int16)` (audio_service.py line 118):
consecutive little-endian byte pairs become signed 16-bit samples; a
dangling final byte cannot occur after `padBytes`, and `np.frombuffer`
would ignore it, as the fall-through case does here. -/
def bytesToSamples : List Nat → List Int
  | lo :: hi :: rest => toInt16 lo hi :: bytesToSamples rest
  | _ => []

/-- The low (first, little-endian) byte of a signed 16-bit sample's
in-memory representation. -/
def int16LowByte (v : Int) : Nat := (v % 65536).toNat % 256

/-- The high (second, little-endian) byte of a signed 16-bit sample's
in-memory representation. -/
def int16HighByte (v : Int) : Nat := (v % 65536).toNat / 256

/-- `ndarray.tobytes()` for an int16 array: each sample contributes its
low byte then its high byte. -/
def samplesToBytes (l : List Int) : List Nat :=
  l.flatMap (fun v => [int16LowByte v, int16HighByte v])

/-! ### `AudioService` state (audio_service.py `__init__`) -/

/-- The mutable fields of the `AudioService` instance that the
classification pipeline reads and writes (audio_service.py lines 26-41).
`vadOk` is whether `webrtcvad.Vad` initialisation succeeded
(`self.vad is not None`). -/
structure AudioState where
  noise_floor : ℚ
  noise_samples : List ℚ
  speech_frames : List Bool
  silence_frames : List Bool
  vadOk : Bool
  deriving DecidableEq, Repr

/-- The state of the freshly constructed module-level singleton
`audio_service = AudioService()` (audio_service.py lines 30-31, 400-401)
when VAD initialisation succeeded: `noise_floor = 50.0`, empty histories. -/
def initAudioState : AudioState :=
  { noise_floor := 50, noise_samples := [], speech_frames := [],
    silence_frames := [], vadOk := true }

/-- 25th-percentile selection used by the noise-floor update
(audio_service.py lines 222-225): sort ascending and take the element at
index `len // 4`. -/
def percentile25 (l : List ℚ) : ℚ :=
  (l.mergeSort (fun a b => decide (a ≤ b))).getD (l.length / 4) 0

/-- Window admission of `AudioService._update_noise_floor`
(audio_service.py lines 214-218): append the new energy, then keep only
the last `max_noise_samples` entries. -/
def admitWindow (ns : List ℚ) (rms : ℚ) : List ℚ :=
  let appended := ns ++ [rms]
  if appended.length > max_noise_samples then
    appended.drop (appended.length - max_noise_samples)
  else appended

/-- `AudioService._update_noise_floor` (audio_service.py lines 209-233).
The sample is admitted only when the speech history is empty or silence
classifications outnumber speech classifications; the window keeps the
last `max_noise_samples` entries; with at least 10 samples the floor is
blended `0.9 * old + 0.1 * percentile25`. -/
def updateNoiseFloor (st : AudioState) (rms : ℚ) : AudioState :=
  if st.speech_frames.length = 0 ∨
      st.silence_frames.length > st.speech_frames.length then
    let window := admitWindow st.noise_samples rms
    if window.length ≥ 10 then
      { st with noise_samples := window,
                noise_floor :=
                  (9/10) * st.noise_floor + (1/10) * percentile25 window }
    else { st with noise_samples := window }
  else st

/-- `AudioService._cleanup_frame_history` (audio_service.py lines 200-207):
both histories are trimmed to their last 100 entries. -/
def cleanupFrameHistory (st : AudioState) : AudioState :=
  { st with
    speech_frames :=
      if st.speech_frames.length > 100 then
        st.speech_frames.drop (st.speech_frames.length - 100)
      else st.speech_frames,
    silence_frames :=
      if st.silence_frames.length > 100 then
        st.silence_frames.drop (st.silence_frames.length - 100)
      else st.silence_frames }

/-! ### Sub-frame loop (audio_service.py lines 137-170) -/

/-- Splitting the sample array into sub-frames of `fsize` samples, the
trailing short sub-frame zero-padded (`for i in range(0, len, frame_size)`
with `np.pad`, audio_service.py lines 142-147). -/
def chunkFrames (fsize : Nat) : List Int → List (List Int)
  | [] => []
  | s :: rest =>
    match fsize with
    | 0 => []
    | f + 1 =>
      let frame := (s :: rest).take (f + 1)
      (frame ++ List.replicate ((f + 1) - frame.length) 0)
        :: chunkFrames (f + 1) ((s :: rest).drop (f + 1))
termination_by l => l.length
decreasing_by simp [List.length_drop]; omega

/-- Accumulator of the per-sub-frame loop: the local counters of
`process_audio_chunk` together with the `AudioService` histories the loop
appends to, plus the running count of `is_speech` invocations. -/
structure LoopAcc where
  speechCount : Nat
  totalCount : Nat
  processed : List (List Int)
  speechHist : List Bool
  silenceHist : List Bool
  vadCalls : Nat
  deriving DecidableEq, Repr

/-- One iteration of the sub-frame loop (audio_service.py lines 142-170).
With a size-matched frame the oracle is consulted: `some true` counts the
frame as speech (counter, history, output); `some false` records silence;
`none` (the `except` branch) appends the frame to the output and counts it
in the total only.  A size-mismatched frame skips the oracle and is
appended to the output. -/
def stepFrame (vad : Nat → Option Bool) (acc : LoopAcc) (frame : List Int) :
    LoopAcc :=
  if frame.length = frame_size then
    match vad acc.vadCalls with
    | some true =>
      { acc with speechCount := acc.speechCount + 1,
                 speechHist := acc.speechHist ++ [true],
                 processed := acc.processed ++ [frame],
                 totalCount := acc.totalCount + 1,
                 vadCalls := acc.vadCalls + 1 }
    | some false =>
      { acc with silenceHist := acc.silenceHist ++ [true],
                 totalCount := acc.totalCount + 1,
                 vadCalls := acc.vadCalls + 1 }
    | none =>
      { acc with processed := acc.processed ++ [frame],
                 totalCount := acc.totalCount + 1,
                 vadCalls := acc.vadCalls + 1 }
  else
    { acc with processed := acc.processed ++ [frame],
               totalCount := acc.totalCount + 1 }

/-- The whole sub-frame loop as a fold, starting from zeroed counters and
the service's current histories. -/
def runFrames (st : AudioState) (vad : Nat → Option Bool)
    (samples : List Int) : LoopAcc :=
  (chunkFrames frame_size samples).foldl (stepFrame vad)
    { speechCount := 0, totalCount := 0, processed := [],
      speechHist := st.speech_frames, silenceHist := st.silence_frames,
      vadCalls := 0 }

/-! ### `process_audio_chunk` (audio_service.py lines 85-198) -/

/-- The sub-frame voting stage of `process_audio_chunk`
(audio_service.py lines 137-194): run the loop, write the histories back,
then decide `has_speech` by `speech_ratio >= threshold and
speech_frame_count >= 2` (and Python's truthiness of `processed_frames`),
cleaning up the frame history on the way. -/
def votingStage (st : AudioState) (samples : List Int)
    (vad : Nat → Option Bool) : (List Int × Bool) × AudioState × Nat :=
  let acc := runFrames st vad samples
  let st2 := { st with speech_frames := acc.speechHist,
                       silence_frames := acc.silenceHist }
  if acc.totalCount = 0 then ((samples, false), st2, acc.vadCalls)
  else
    let speechFrac : ℚ := (acc.speechCount : ℚ) / (acc.totalCount : ℚ)
    let st3 := cleanupFrameHistory st2
    if speechFrac ≥ vad_speech_threshold ∧ 2 ≤ acc.speechCount
        ∧ acc.processed ≠ [] then
      ((acc.processed.flatten, true), st3, acc.vadCalls)
    else ((samples, false), st3, acc.vadCalls)

/-- `AudioService.process_audio_chunk` on an already-converted sample
array, with the chunk's RMS energy passed explicitly (see the header note
on `np.sqrt`).  Returns `((output samples, has_speech), new state,
number of is_speech invocations)`.  Mirrors lines 104-198: VAD-unavailable
guard, empty-sample guard, noise-floor update, energy gate, then the
voting stage. -/
def processSamples (st : AudioState) (samples : List Int) (rms : ℚ)
    (vad : Nat → Option Bool) : (List Int × Bool) × AudioState × Nat :=
  if st.vadOk = false then ((samples, false), st, 0)
  else if samples.length = 0 then ((samples, false), st, 0)
  else
    let st1 := updateNoiseFloor st rms
    let dynamicThreshold := st1.noise_floor * adaptive_threshold_multiplier
    if rms < dynamicThreshold then ((samples, false), st1, 0)
    else votingStage st1 samples vad

/-- `AudioService.process_audio_chunk` at the byte level: the
VAD-availability guard fires before padding (line 104); otherwise the
buffer is padded, interpreted as samples and processed; the speech output
is the concatenation of the kept sub-frames re-serialised
(`processed_audio.tobytes()`), the non-speech output is the (padded)
input buffer. -/
def process_audio_chunk (st : AudioState) (audioBytes : List Nat) (rms : ℚ)
    (vad : Nat → Option Bool) : (List Nat × Bool) × AudioState × Nat :=
  if st.vadOk = false then ((audioBytes, false), st, 0)
  else
    let padded := padBytes audioBytes
    let r := processSamples st (bytesToSamples padded) rms vad
    ((if r.1.2 then samplesToBytes r.1.1 else padded, r.1.2), r.2)

/-! ### Streaming layer (`streaming_service.py`) -/

/-- The per-connection buffering state kept in
`active_connections[connection_id]` (streaming_service.py lines 148-158):
the audio buffer (a list of processed byte blobs), `last_speech_time`
(a timestamp, or `none`), and the three timing parameters. -/
structure Session where
  audio_buffer : List (List Nat)
  last_speech_time : Option ℚ
  speech_timeout : ℚ
  min_audio_duration : ℚ
  max_buffer_duration : ℚ
  deriving DecidableEq, Repr

/-- The session state created on connect (streaming_service.py
lines 148-158) and by the lazy re-creation inside `handle_audio_chunk`
(lines 287-296): empty buffer, no speech timestamp, timeouts 1.5 s /
0.15 s / 10 s. -/
def initSession : Session :=
  { audio_buffer := [], last_speech_time := none,
    speech_timeout := 3/2, min_audio_duration := 3/20,
    max_buffer_duration := 10 }

/-- `AudioService.get_audio_duration` (audio_service.py lines 373-393):
pad, count 16-bit samples, return milliseconds. -/
def get_audio_duration (audioBytes : List Nat) : ℚ :=
  ((bytesToSamples (padBytes audioBytes)).length : ℚ) / (sample_rate : ℚ)
    * 1000

/-- `StreamingService._process_buffered_audio` (streaming_service.py
lines 353-393).  Returns the new session and the blob dispatched to the
transcription service (`none` when nothing is dispatched).  An empty
buffer is a no-op; a blob shorter than `min_audio_duration` is discarded
but the buffer and timestamp are still reset; otherwise both are reset
and the combined blob is dispatched. -/
def processBuffered (s : Session) : Session × Option (List Nat) :=
  if s.audio_buffer = [] then (s, none)
  else if get_audio_duration s.audio_buffer.flatten / 1000 <
      s.min_audio_duration then
    ({ s with audio_buffer := [], last_speech_time := none }, none)
  else
    ({ s with audio_buffer := [], last_speech_time := none },
     some s.audio_buffer.flatten)

/-- `StreamingService.handle_transcription_request` for a manual
client-issued request (streaming_service.py lines 395-441, the branch
with no `pre_combined_audio`): an empty buffer returns without action;
otherwise the buffered chunks are combined and dispatched and the buffer
is cleared — `last_speech_time` is left untouched. -/
def handleTranscriptionRequest (s : Session) : Session × Option (List Nat) :=
  if s.audio_buffer = [] then (s, none)
  else ({ s with audio_buffer := [] }, some s.audio_buffer.flatten)

/-- `StreamingService._check_transcription_trigger` (streaming_service.py
lines 327-351): flush when the buffered duration reaches
`max_buffer_duration`. -/
def checkTranscriptionTrigger (s : Session) : Session × Option (List Nat) :=
  if s.audio_buffer = [] then (s, none)
  else if get_audio_duration s.audio_buffer.flatten / 1000 ≥
      s.max_buffer_duration then
    processBuffered s
  else (s, none)

/-- `StreamingService.handle_audio_chunk` (streaming_service.py
lines 256-325) for a connection that is already registered: classify via
the shared `audio_service` state, then either append-and-maybe-flush
(speech) or check the inline silence timeout (no speech).  Returns the
updated shared audio state, the updated session and the dispatched blob,
if any. -/
def handleAudioChunk (shared : AudioState) (s : Session)
    (audioBytes : List Nat) (rms : ℚ) (vad : Nat → Option Bool) (now : ℚ) :
    AudioState × Session × Option (List Nat) :=
  if (process_audio_chunk shared audioBytes rms vad).1.2 then
    ((process_audio_chunk shared audioBytes rms vad).2.1,
     checkTranscriptionTrigger
       { s with
         audio_buffer := s.audio_buffer ++
           [(process_audio_chunk shared audioBytes rms vad).1.1],
         last_speech_time := some now })
  else
    match s.last_speech_time with
    | some t0 =>
      if s.audio_buffer ≠ [] ∧ now - t0 ≥ s.speech_timeout then
        ((process_audio_chunk shared audioBytes rms vad).2.1,
         processBuffered s)
      else ((process_audio_chunk shared audioBytes rms vad).2.1, s, none)
    | none => ((process_audio_chunk shared audioBytes rms vad).2.1, s, none)

/-- One per-session check of `StreamingService._silence_check_loop`
(streaming_service.py lines 611-634): a session with a set
`last_speech_time`, a non-empty buffer and an elapsed silence of at least
`speech_timeout` is flushed through `_process_buffered_audio`. -/
def watchdogTick (s : Session) (now : ℚ) : Session × Option (List Nat) :=
  match s.last_speech_time with
  | some t0 =>
    if s.audio_buffer ≠ [] ∧ now - t0 ≥ s.speech_timeout then
      processBuffered s
    else (s, none)
  | none => (s, none)

/-! ### Silence-only event runs (for the temporal claim) -/

/-- An event observed by a session after its last speech chunk: either an
inbound chunk that the classifier marked as silence, or a watchdog tick;
both carry the wall-clock time at which they run. -/
inductive SilenceEv where
  | chunk (now : ℚ)
  | tick (now : ℚ)
  deriving Repr

/-- The time at which a silence event runs. -/
def SilenceEv.time : SilenceEv → ℚ
  | .chunk now => now
  | .tick now => now

/-- Effect of one silence event on a session, together with a flag
recording whether this event flushed the buffer.  The inline silence path
of `handle_audio_chunk` (lines 312-322) and the watchdog check
(lines 620-630) guard the flush identically: `last_speech_time` set,
buffer non-empty, elapsed silence at least `speech_timeout`. -/
def silenceStep (s : Session) (e : SilenceEv) : Session × Bool :=
  match s.last_speech_time with
  | some t0 =>
    if s.audio_buffer ≠ [] ∧ e.time - t0 ≥ s.speech_timeout then
      ((processBuffered s).1, true)
    else (s, false)
  | none => (s, false)

/-- Run a list of silence events, returning the final session and the
per-event flush flags. -/
def runSilence (s : Session) : List SilenceEv → Session × List Bool
  | [] => (s, [])
  | e :: es =>
    ((runSilence (silenceStep s e).1 es).1,
     (silenceStep s e).2 :: (runSilence (silenceStep s e).1 es).2)

/-- Keeps only the first `true` of a boolean trace: everything after the
first `true` is forced to `false`.  (The shape a "flushes exactly once, at
the first qualifying event" trace must have.) -/
def markFirst : List Bool → List Bool
  | [] => []
  | b :: bs =>
    b :: (if b then List.replicate bs.length false else markFirst bs)

/-- The spec's Session invariant: an empty buffer forces a cleared
`last_speech_time`. -/
def bufferInv (s : Session) : Prop :=
  s.audio_buffer = [] → s.last_speech_time = none

/-- A `webrtcvad` oracle that reports speech on every call. -/
def vadAlways : Nat → Option Bool := fun _ => some true

/-- A two-byte chunk holding the single 16-bit sample 0 (RMS 0). -/
def zeroChunk : List Nat := [0, 0]

/-- A 1,280-byte chunk of 640 constant samples `x` (40 ms at 16 kHz, two
20 ms sub-frames); its RMS is `|x|`. -/
def toneChunk (x : Int) : List Nat := samplesToBytes (List.replicate 640 x)

/-- The externally triggerable operations on one session, for whole-run
statements: an inbound audio chunk, a manual transcription request, and a
watchdog tick. -/
inductive SessOp where
  | chunk (audioBytes : List Nat) (rms : ℚ) (vad : Nat → Option Bool)
      (now : ℚ)
  | transcribe
  | tick (now : ℚ)

/-- One operation against the shared audio state and one session;
returns the new (shared state, session) pair and the blob dispatched to
the transcription service, if any. -/
def runOp (w : AudioState × Session) : SessOp →
    (AudioState × Session) × Option (List Nat)
  | .chunk audioBytes rms vad now =>
    (((handleAudioChunk w.1 w.2 audioBytes rms vad now).1,
      (handleAudioChunk w.1 w.2 audioBytes rms vad now).2.1),
     (handleAudioChunk w.1 w.2 audioBytes rms vad now).2.2)
  | .transcribe =>
    ((w.1, (handleTranscriptionRequest w.2).1),
     (handleTranscriptionRequest w.2).2)
  | .tick now =>
    ((w.1, (watchdogTick w.2 now).1), (watchdogTick w.2 now).2)

/-- Run a list of operations, collecting every dispatched blob. -/
def runOps (w : AudioState × Session) :
    List SessOp → (AudioState × Session) × List (Option (List Nat))
  | [] => (w, [])
  | op :: ops =>
    ((runOps (runOp w op).1 ops).1,
     (runOp w op).2 :: (runOps (runOp w op).1 ops).2)

/-! ### Helper lemmas: byte/sample layer -/

theorem bytesToSamples_nil : bytesToSamples [] = [] := rfl

theorem bytesToSamples_cons_cons (lo hi : Nat) (rest : List Nat) :
    bytesToSamples (lo :: hi :: rest) = toInt16 lo hi :: bytesToSamples rest :=
  rfl

/-- Two-at-a-time length law for sample interpretation. -/
theorem bytesToSamples_length : ∀ bs : List Nat,
    (bytesToSamples bs).length = bs.length / 2
  | [] => rfl
  | [_] => by
    show (0 : Nat) = 1 / 2
    rfl
  | _ :: _ :: rest => by
    rw [bytesToSamples_cons_cons]
    simp only [List.length_cons, bytesToSamples_length rest]
    omega

/-- Sample interpretation splits over an append at an even boundary. -/
theorem bytesToSamples_append_even : ∀ bs l : List Nat, bs.length % 2 = 0 →
    bytesToSamples (bs ++ l) = bytesToSamples bs ++ bytesToSamples l
  | [], _, _ => rfl
  | [_], _, h => by simp at h
  | a :: b :: rest, l, h => by
    simp only [List.cons_append, bytesToSamples_cons_cons]
    rw [bytesToSamples_append_even rest l (by simp at h; omega)]

/-- An even-length run of zero bytes becomes a run of zero samples. -/
theorem bytesToSamples_replicate_zero (n : Nat) (l : List Nat) :
    bytesToSamples (List.replicate (2 * n) 0 ++ l) =
      List.replicate n 0 ++ bytesToSamples l := by
  induction n with
  | zero => simp
  | succ k ih =>
    have hrep : List.replicate (2 * (k + 1)) (0:Nat) =
        0 :: 0 :: List.replicate (2 * k) 0 := by
      rw [show 2 * (k + 1) = (2 * k + 1) + 1 from by omega,
        List.replicate_succ, List.replicate_succ]
    rw [hrep, List.cons_append, List.cons_append, bytesToSamples_cons_cons,
      show toInt16 0 0 = 0 from rfl, ih, List.replicate_succ, List.cons_append]

/-- Round-trip of one in-range signed 16-bit sample through its
little-endian byte pair. -/
theorem toInt16_bytes (v : Int) (hlo : -32768 ≤ v) (hhi : v < 32768) :
    toInt16 (int16LowByte v) (int16HighByte v) = v := by
  simp only [toInt16, int16LowByte, int16HighByte]
  split <;> omega

/-- Round-trip of a list of in-range samples through serialisation. -/
theorem bytesToSamples_samplesToBytes (l : List Int)
    (h : ∀ v ∈ l, -32768 ≤ v ∧ v < 32768) :
    bytesToSamples (samplesToBytes l) = l := by
  induction l with
  | nil => rfl
  | cons v rest ih =>
    have hv := h v (List.mem_cons_self v rest)
    simp only [samplesToBytes, List.flatMap_cons, List.cons_append,
      List.nil_append, bytesToSamples_cons_cons]
    rw [toInt16_bytes v hv.1 hv.2]
    simp only [List.cons.injEq, true_and]
    exact ih fun w hw => h w (List.mem_cons_of_mem v hw)

theorem samplesToBytes_length (l : List Int) :
    (samplesToBytes l).length = 2 * l.length := by
  induction l with
  | nil => rfl
  | cons v rest ih =>
    simp only [samplesToBytes, List.flatMap_cons] at ih ⊢
    simp [ih, List.length_cons]
    omega

/-- Serialised sample lists are even-length, so `padBytes` is the
identity on them. -/
theorem padBytes_samplesToBytes (l : List Int) :
    padBytes (samplesToBytes l) = samplesToBytes l := by
  unfold padBytes
  rw [samplesToBytes_length]
  simp [Nat.mul_mod_right]

/-! ### Helper lemmas: sub-frame splitting and the voting loop -/

theorem frame_size_eq : frame_size = 320 := by decide

theorem chunkFrames_nil (f : Nat) : chunkFrames f ([] : List Int) = [] := by
  unfold chunkFrames
  rfl

/-- Splitting chops off one full frame at a time. -/
theorem chunkFrames_append (f : Nat) (l t : List Int)
    (hl : l.length = f + 1) :
    chunkFrames (f + 1) (l ++ t) = l :: chunkFrames (f + 1) t := by
  cases l with
  | nil => rw [List.length_nil] at hl; exact absurd hl (by omega)
  | cons a l' =>
    rw [List.cons_append, chunkFrames]
    have htake : (a :: (l' ++ t)).take (f + 1) = a :: l' := by
      rw [← List.cons_append, ← hl, List.take_left]
    have hdrop : (a :: (l' ++ t)).drop (f + 1) = t := by
      rw [← List.cons_append, ← hl, List.drop_left]
    rw [htake, hdrop]
    have hl' : (a :: l').length = f + 1 := hl
    rw [hl', Nat.sub_self]
    rw [List.replicate, List.append_nil]

theorem replicate_append_replicate (m n : Nat) (x : Int) :
    List.replicate (m + n) x = List.replicate m x ++ List.replicate n x := by
  induction m with
  | zero => simp
  | succ k ih =>
    rw [Nat.succ_add]
    simp only [List.replicate_succ, List.cons_append]
    rw [ih]

/-- Splitting a constant chunk of `(f+1) * n` samples yields `n` constant
frames of `f+1` samples, none needing padding. -/
theorem chunkFrames_replicate (f n : Nat) (x : Int) :
    chunkFrames (f + 1) (List.replicate ((f + 1) * n) x) =
      List.replicate n (List.replicate (f + 1) x) := by
  induction n with
  | zero => rw [Nat.mul_zero, List.replicate_zero, chunkFrames_nil]; rfl
  | succ k ih =>
    have hsplit : List.replicate ((f + 1) * (k + 1)) x =
        List.replicate (f + 1) x ++ List.replicate ((f + 1) * k) x := by
      rw [← replicate_append_replicate]
      congr 1
      ring
    rw [hsplit, chunkFrames_append f _ _ (List.length_replicate _ _), ih]
    rfl

/-- The `is_speech -> True` branch of the loop body. -/
theorem stepFrame_eq_speech (vad : Nat → Option Bool) (acc : LoopAcc)
    (frame : List Int) (hlen : frame.length = frame_size)
    (h : vad acc.vadCalls = some true) :
    stepFrame vad acc frame =
      { acc with speechCount := acc.speechCount + 1,
                 speechHist := acc.speechHist ++ [true],
                 processed := acc.processed ++ [frame],
                 totalCount := acc.totalCount + 1,
                 vadCalls := acc.vadCalls + 1 } := by
  unfold stepFrame
  rw [if_pos hlen, h]

/-- The `is_speech -> False` branch of the loop body. -/
theorem stepFrame_eq_silence (vad : Nat → Option Bool) (acc : LoopAcc)
    (frame : List Int) (hlen : frame.length = frame_size)
    (h : vad acc.vadCalls = some false) :
    stepFrame vad acc frame =
      { acc with silenceHist := acc.silenceHist ++ [true],
                 totalCount := acc.totalCount + 1,
                 vadCalls := acc.vadCalls + 1 } := by
  unfold stepFrame
  rw [if_pos hlen, h]

/-- The `is_speech`-raises branch of the loop body. -/
theorem stepFrame_eq_err (vad : Nat → Option Bool) (acc : LoopAcc)
    (frame : List Int) (hlen : frame.length = frame_size)
    (h : vad acc.vadCalls = none) :
    stepFrame vad acc frame =
      { acc with processed := acc.processed ++ [frame],
                 totalCount := acc.totalCount + 1,
                 vadCalls := acc.vadCalls + 1 } := by
  unfold stepFrame
  rw [if_pos hlen, h]

theorem len320 (x : Int) : (List.replicate 320 x).length = frame_size := by
  rw [List.length_replicate, frame_size_eq]

/-! ### Helper lemmas: evaluating the classifier -/

theorem votingStage_eq_true (st : AudioState) (samples : List Int)
    (vad : Nat → Option Bool) (acc : LoopAcc)
    (hacc : runFrames st vad samples = acc) (h0 : ¬ acc.totalCount = 0)
    (hdec : (acc.speechCount : ℚ) / (acc.totalCount : ℚ) ≥
        vad_speech_threshold ∧ 2 ≤ acc.speechCount ∧ acc.processed ≠ []) :
    votingStage st samples vad =
      ((acc.processed.flatten, true),
       cleanupFrameHistory { st with speech_frames := acc.speechHist,
                                     silence_frames := acc.silenceHist },
       acc.vadCalls) := by
  unfold votingStage
  rw [hacc, if_neg h0, if_pos hdec]

theorem votingStage_eq_false (st : AudioState) (samples : List Int)
    (vad : Nat → Option Bool) (acc : LoopAcc)
    (hacc : runFrames st vad samples = acc) (h0 : ¬ acc.totalCount = 0)
    (hdec : ¬ ((acc.speechCount : ℚ) / (acc.totalCount : ℚ) ≥
        vad_speech_threshold ∧ 2 ≤ acc.speechCount ∧ acc.processed ≠ [])) :
    votingStage st samples vad =
      ((samples, false),
       cleanupFrameHistory { st with speech_frames := acc.speechHist,
                                     silence_frames := acc.silenceHist },
       acc.vadCalls) := by
  unfold votingStage
  rw [hacc, if_neg h0, if_neg hdec]

theorem processSamples_noVad (st : AudioState) (samples : List Int) (rms : ℚ)
    (vad : Nat → Option Bool) (hv : st.vadOk = false) :
    processSamples st samples rms vad = ((samples, false), st, 0) := by
  unfold processSamples
  rw [if_pos hv]

/-- Energy-gate rejection: RMS strictly below the dynamic threshold built
from the post-update noise floor short-circuits to no-speech with zero
`is_speech` invocations. -/
theorem processSamples_reject (st : AudioState) (samples : List Int)
    (rms : ℚ) (vad : Nat → Option Bool) (hv : st.vadOk = true)
    (hne : ¬ samples.length = 0)
    (hlow : rms < (updateNoiseFloor st rms).noise_floor *
      adaptive_threshold_multiplier) :
    processSamples st samples rms vad =
      ((samples, false), updateNoiseFloor st rms, 0) := by
  unfold processSamples
  rw [if_neg (by rw [hv]; exact fun h => Bool.noConfusion h), if_neg hne,
    if_pos hlow]

/-- Energy-gate pass: control reaches the sub-frame voting stage. -/
theorem processSamples_vote (st : AudioState) (samples : List Int)
    (rms : ℚ) (vad : Nat → Option Bool) (hv : st.vadOk = true)
    (hne : ¬ samples.length = 0)
    (hhigh : ¬ rms < (updateNoiseFloor st rms).noise_floor *
      adaptive_threshold_multiplier) :
    processSamples st samples rms vad =
      votingStage (updateNoiseFloor st rms) samples vad := by
  unfold processSamples
  rw [if_neg (by rw [hv]; exact fun h => Bool.noConfusion h), if_neg hne,
    if_neg hhigh]

theorem process_audio_chunk_noVad (st : AudioState) (audioBytes : List Nat)
    (rms : ℚ) (vad : Nat → Option Bool) (hv : st.vadOk = false) :
    process_audio_chunk st audioBytes rms vad = ((audioBytes, false), st, 0)
    := by
  unfold process_audio_chunk
  rw [if_pos hv]

theorem process_audio_chunk_vadOk (st : AudioState) (audioBytes : List Nat)
    (rms : ℚ) (vad : Nat → Option Bool) (hv : st.vadOk = true) :
    process_audio_chunk st audioBytes rms vad =
      ((if (processSamples st (bytesToSamples (padBytes audioBytes)) rms
            vad).1.2
        then samplesToBytes (processSamples st
          (bytesToSamples (padBytes audioBytes)) rms vad).1.1
        else padBytes audioBytes,
        (processSamples st (bytesToSamples (padBytes audioBytes)) rms
          vad).1.2),
       (processSamples st (bytesToSamples (padBytes audioBytes)) rms
         vad).2) := by
  unfold process_audio_chunk
  rw [if_neg (by rw [hv]; exact fun h => Bool.noConfusion h)]

/-- 1600-sample constant chunk, oracle flags the first 2 of 5 frames. -/
theorem runFrames_lt2 (st : AudioState) :
    runFrames st (fun i => some (decide (i < 2))) (List.replicate 1600 200)
      = { speechCount := 2, totalCount := 5,
          processed := [List.replicate 320 200, List.replicate 320 200],
          speechHist := st.speech_frames ++ [true, true],
          silenceHist := st.silence_frames ++ [true, true, true],
          vadCalls := 5 } := by
  unfold runFrames
  rw [frame_size_eq, show (320 : Nat) = 319 + 1 from rfl,
    show (1600 : Nat) = (319 + 1) * 5 from rfl, chunkFrames_replicate,
    show (319 : Nat) + 1 = 320 from rfl]
  rw [show List.replicate 5 (List.replicate 320 (200:ℤ)) =
    [List.replicate 320 200, List.replicate 320 200, List.replicate 320 200,
     List.replicate 320 200, List.replicate 320 200] from rfl]
  rw [List.foldl_cons, stepFrame_eq_speech _ _ _ (len320 _) rfl]
  rw [List.foldl_cons, stepFrame_eq_speech _ _ _ (len320 _) rfl]
  rw [List.foldl_cons, stepFrame_eq_silence _ _ _ (len320 _) rfl]
  rw [List.foldl_cons, stepFrame_eq_silence _ _ _ (len320 _) rfl]
  rw [List.foldl_cons, stepFrame_eq_silence _ _ _ (len320 _) rfl]
  rw [List.foldl_nil]
  simp only [List.append_assoc]
  rfl

/-- 1600-sample constant chunk, oracle flags the first 3 of 5 frames. -/
theorem runFrames_lt3 (st : AudioState) :
    runFrames st (fun i => some (decide (i < 3))) (List.replicate 1600 200)
      = { speechCount := 3, totalCount := 5,
          processed := [List.replicate 320 200, List.replicate 320 200,
            List.replicate 320 200],
          speechHist := st.speech_frames ++ [true, true, true],
          silenceHist := st.silence_frames ++ [true, true],
          vadCalls := 5 } := by
  unfold runFrames
  rw [frame_size_eq, show (320 : Nat) = 319 + 1 from rfl,
    show (1600 : Nat) = (319 + 1) * 5 from rfl, chunkFrames_replicate,
    show (319 : Nat) + 1 = 320 from rfl]
  rw [show List.replicate 5 (List.replicate 320 (200:ℤ)) =
    [List.replicate 320 200, List.replicate 320 200, List.replicate 320 200,
     List.replicate 320 200, List.replicate 320 200] from rfl]
  rw [List.foldl_cons, stepFrame_eq_speech _ _ _ (len320 _) rfl]
  rw [List.foldl_cons, stepFrame_eq_speech _ _ _ (len320 _) rfl]
  rw [List.foldl_cons, stepFrame_eq_speech _ _ _ (len320 _) rfl]
  rw [List.foldl_cons, stepFrame_eq_silence _ _ _ (len320 _) rfl]
  rw [List.foldl_cons, stepFrame_eq_silence _ _ _ (len320 _) rfl]
  rw [List.foldl_nil]
  simp only [List.append_assoc]
  rfl

/-- 1600-sample constant chunk, oracle raises on every frame. -/
theorem runFrames_allErr (st : AudioState) :
    runFrames st (fun _ => none) (List.replicate 1600 200) =
      { speechCount := 0, totalCount := 5,
        processed := [List.replicate 320 200, List.replicate 320 200,
          List.replicate 320 200, List.replicate 320 200,
          List.replicate 320 200],
        speechHist := st.speech_frames,
        silenceHist := st.silence_frames,
        vadCalls := 5 } := by
  unfold runFrames
  rw [frame_size_eq, show (320 : Nat) = 319 + 1 from rfl,
    show (1600 : Nat) = (319 + 1) * 5 from rfl, chunkFrames_replicate,
    show (319 : Nat) + 1 = 320 from rfl]
  rw [show List.replicate 5 (List.replicate 320 (200:ℤ)) =
    [List.replicate 320 200, List.replicate 320 200, List.replicate 320 200,
     List.replicate 320 200, List.replicate 320 200] from rfl]
  rw [List.foldl_cons, stepFrame_eq_err _ _ _ (len320 _) rfl]
  rw [List.foldl_cons, stepFrame_eq_err _ _ _ (len320 _) rfl]
  rw [List.foldl_cons, stepFrame_eq_err _ _ _ (len320 _) rfl]
  rw [List.foldl_cons, stepFrame_eq_err _ _ _ (len320 _) rfl]
  rw [List.foldl_cons, stepFrame_eq_err _ _ _ (len320 _) rfl]
  rw [List.foldl_nil]
  rfl

/-- 640-sample constant chunk, oracle flags both frames as speech. -/
theorem runFrames_const640 (st : AudioState) (x : Int) :
    runFrames st (fun _ => some true) (List.replicate 640 x) =
      { speechCount := 2, totalCount := 2,
        processed := [List.replicate 320 x, List.replicate 320 x],
        speechHist := st.speech_frames ++ [true, true],
        silenceHist := st.silence_frames,
        vadCalls := 2 } := by
  unfold runFrames
  rw [frame_size_eq, show (320 : Nat) = 319 + 1 from rfl,
    show (640 : Nat) = (319 + 1) * 2 from rfl, chunkFrames_replicate,
    show (319 : Nat) + 1 = 320 from rfl]
  rw [show List.replicate 2 (List.replicate 320 x) =
    [List.replicate 320 x, List.replicate 320 x] from rfl]
  rw [List.foldl_cons, stepFrame_eq_speech _ _ _ (len320 _) rfl]
  rw [List.foldl_cons, stepFrame_eq_speech _ _ _ (len320 _) rfl]
  rw [List.foldl_nil]
  simp only [List.append_assoc]
  rfl

theorem flatten_two_320 (x : Int) :
    List.flatten [List.replicate 320 x, List.replicate 320 x] =
      List.replicate 640 x := by
  rw [List.flatten_cons, List.flatten_cons, List.flatten_nil,
    List.append_nil, ← replicate_append_replicate]

/-- Every sub-frame counted as speech was also appended to the output, so
the output frame list is at least as long as the speech count. -/
theorem speechCount_le_processed (vad : Nat → Option Bool) :
    ∀ (frames : List (List Int)) (acc : LoopAcc),
      acc.speechCount ≤ acc.processed.length →
      ((frames.foldl (stepFrame vad) acc).speechCount ≤
        (frames.foldl (stepFrame vad) acc).processed.length)
  | [], acc, h => h
  | f :: rest, acc, h => by
    rw [List.foldl_cons]
    refine speechCount_le_processed vad rest (stepFrame vad acc f) ?_
    unfold stepFrame
    by_cases hlen : f.length = frame_size
    · rw [if_pos hlen]
      cases hvad : vad acc.vadCalls with
      | none => simpa using Nat.le_succ_of_le h
      | some b =>
        cases b with
        | true => simpa using Nat.succ_le_succ h
        | false => simpa using h
    · rw [if_neg hlen]
      simpa using Nat.le_succ_of_le h

theorem runFrames_speechCount_le (st : AudioState)
    (vad : Nat → Option Bool) (samples : List Int) :
    (runFrames st vad samples).speechCount ≤
      (runFrames st vad samples).processed.length := by
  unfold runFrames
  exact speechCount_le_processed vad _ _ (Nat.le_refl 0)

/-! ### Helper lemmas: whole speech chunks through the wrapper -/

theorem range_replicate (n : Nat) (x : Int) (h1 : -32768 ≤ x)
    (h2 : x < 32768) :
    ∀ v ∈ List.replicate n x, -32768 ≤ v ∧ v < 32768 := fun v hv => by
  rw [List.eq_of_mem_replicate hv]
  exact ⟨h1, h2⟩

theorem duration_samplesToBytes (l : List Int)
    (h : ∀ v ∈ l, -32768 ≤ v ∧ v < 32768) :
    get_audio_duration (samplesToBytes l) =
      (l.length : ℚ) / (sample_rate : ℚ) * 1000 := by
  unfold get_audio_duration
  rw [padBytes_samplesToBytes, bytesToSamples_samplesToBytes l h]

theorem toneChunk_samples (x : Int) (hx1 : -32768 ≤ x) (hx2 : x < 32768) :
    bytesToSamples (padBytes (toneChunk x)) = List.replicate 640 x := by
  unfold toneChunk
  rw [padBytes_samplesToBytes,
    bytesToSamples_samplesToBytes _ (range_replicate 640 x hx1 hx2)]

/-- First component of `processSamples` on a 640-sample constant chunk
that passes the energy gate, with the all-speech oracle: the whole chunk
comes back flagged as speech. -/
theorem processSamples_tone_fst (shared : AudioState) (x : Int) (rms : ℚ)
    (hv : shared.vadOk = true)
    (hgate : ¬ rms < (updateNoiseFloor shared rms).noise_floor *
      adaptive_threshold_multiplier) :
    (processSamples shared (List.replicate 640 x) rms vadAlways).1 =
      (List.replicate 640 x, true) := by
  unfold vadAlways
  rw [processSamples_vote _ _ _ _ hv
      (by rw [List.length_replicate]; norm_num) hgate,
    votingStage_eq_true _ _ _ _ (runFrames_const640 _ x)
      ((by norm_num : ¬ (2:Nat) = 0))
      ⟨(by norm_num [vad_speech_threshold] :
          (((2:Nat):ℚ) / ((2:Nat):ℚ) ≥ vad_speech_threshold)),
       (by norm_num : (2:Nat) ≤ 2), List.cons_ne_nil _ _⟩]
  show (List.flatten [List.replicate 320 x, List.replicate 320 x], true)
    = _
  rw [flatten_two_320]

theorem process_audio_chunk_tone_fst (shared : AudioState) (x : Int)
    (rms : ℚ) (hv : shared.vadOk = true) (hx1 : -32768 ≤ x)
    (hx2 : x < 32768)
    (hgate : ¬ rms < (updateNoiseFloor shared rms).noise_floor *
      adaptive_threshold_multiplier) :
    (process_audio_chunk shared (toneChunk x) rms vadAlways).1 =
      (toneChunk x, true) := by
  rw [process_audio_chunk_vadOk _ _ _ _ hv, toneChunk_samples x hx1 hx2,
    processSamples_tone_fst shared x rms hv hgate]
  rfl

/-- A gate-passing constant tone chunk lands in the session buffer: the
inline max-duration trigger does not fire (40 ms < 10 s), so the session
ends with the processed chunk appended and the timestamp set. -/
theorem handleAudioChunk_tone (shared : AudioState) (s : Session)
    (x : Int) (rms : ℚ) (now : ℚ) (hv : shared.vadOk = true)
    (hx1 : -32768 ≤ x) (hx2 : x < 32768)
    (hgate : ¬ rms < (updateNoiseFloor shared rms).noise_floor *
      adaptive_threshold_multiplier)
    (hbuf : s.audio_buffer = []) (hmax : s.max_buffer_duration = 10) :
    (handleAudioChunk shared s (toneChunk x) rms vadAlways now).2.1 =
      { s with audio_buffer := [toneChunk x],
               last_speech_time := some now } := by
  unfold handleAudioChunk
  rw [process_audio_chunk_tone_fst shared x rms hv hx1 hx2 hgate, hbuf]
  show (checkTranscriptionTrigger
    { s with audio_buffer := [toneChunk x],
             last_speech_time := some now }).1 = _
  unfold checkTranscriptionTrigger
  have hdur : ¬ get_audio_duration (List.flatten [toneChunk x]) / 1000 ≥
      s.max_buffer_duration := by
    rw [List.flatten_cons, List.flatten_nil, List.append_nil]
    unfold toneChunk
    rw [duration_samplesToBytes _ (range_replicate 640 x hx1 hx2),
      List.length_replicate, hmax]
    norm_num [sample_rate]
  rw [if_neg (show ¬ ([toneChunk x] : List (List Nat)) = [] from
      List.cons_ne_nil _ _), if_neg hdur]

/-! ### C3: odd-length chunk padding -/

/-- The 2,401-byte input of the claim: 2,400 zero bytes followed by a
trailing byte 1. -/
def oddChunk : List Nat := List.replicate 2400 0 ++ [1]

/-- **C3, counterexample.**  The claim asserts the final sample of the
padded 2,401-byte chunk has high byte equal to the original trailing byte
and low byte zero.  On the concrete chunk with trailing byte 1, the final
sample is `1` (the trailing byte landed in the LOW byte, and the appended
zero pad in the HIGH byte, as the samples are little-endian), so the
claimed byte assignment is false. -/
theorem c3_counterexample :
    (bytesToSamples (padBytes oddChunk)).getLast? = some 1 ∧
      ¬ (int16HighByte 1 = 1 ∧ int16LowByte 1 = 0) := by
  constructor
  · have hlen : oddChunk.length = 2401 := by
      unfold oddChunk
      rw [List.length_append, List.length_replicate]
      rfl
    have hpad : padBytes oddChunk = oddChunk ++ [0] := by
      unfold padBytes
      rw [hlen]
      norm_num
    rw [hpad]
    unfold oddChunk
    rw [List.append_assoc]
    rw [show (2400 : Nat) = 2 * 1200 from rfl, bytesToSamples_replicate_zero]
    rw [show bytesToSamples ([1] ++ [0]) = [1] from rfl]
    rw [List.getLast?_concat]
  · decide

/-- **C3, amended.**  For any 2,400-byte prefix and trailing byte
`b < 256`, the 2,401-byte chunk is deterministically zero-padded to 2,402
bytes, yielding 1,201 samples whose final sample's LOW byte equals the
original trailing byte and whose HIGH byte is zero (the padded zero is
interpreted little-endian as the high byte). -/
theorem c3_amended (bs : List Nat) (b : Nat)
    (hbs : bs.length = 2400) (hb : b < 256) :
    padBytes (bs ++ [b]) = bs ++ [b, 0] ∧
      (bytesToSamples (padBytes (bs ++ [b]))).length = 1201 ∧
      (bytesToSamples (padBytes (bs ++ [b]))).getLast? = some (toInt16 b 0) ∧
      int16LowByte (toInt16 b 0) = b ∧ int16HighByte (toInt16 b 0) = 0 := by
  have hpad : padBytes (bs ++ [b]) = bs ++ [b, 0] := by
    unfold padBytes
    have hl : (bs ++ [b]).length = 2401 := by
      rw [List.length_append, hbs]
      rfl
    rw [hl]
    norm_num
  have hval : toInt16 b 0 = (b : Int) := by
    unfold toInt16
    have : b % 256 = b := Nat.mod_eq_of_lt hb
    simp only [this, Nat.mod_self, Nat.zero_mod, Nat.mul_zero, Nat.add_zero]
    have : b < 32768 := by omega
    simp [this]
  have hsplit : bytesToSamples (bs ++ [b, 0]) =
      bytesToSamples bs ++ [toInt16 b 0] := by
    rw [bytesToSamples_append_even bs [b, 0] (by omega)]
    rfl
  refine ⟨hpad, ?_, ?_, ?_, ?_⟩
  · rw [hpad, hsplit]
    simp [bytesToSamples_length, hbs]
  · rw [hpad, hsplit, List.getLast?_concat]
  · rw [hval]
    unfold int16LowByte
    omega
  · rw [hval]
    unfold int16HighByte
    omega

/-- **C3, amended, witness.** -/
theorem c3_amended_witness :
    padBytes (List.replicate 2400 0 ++ [7]) = List.replicate 2400 0 ++ [7, 0] ∧
      (bytesToSamples (padBytes (List.replicate 2400 0 ++ [7]))).length = 1201 ∧
      (bytesToSamples (padBytes (List.replicate 2400 0 ++ [7]))).getLast?
        = some (toInt16 7 0) ∧
      int16LowByte (toInt16 7 0) = 7 ∧ int16HighByte (toInt16 7 0) = 0 :=
  c3_amended (List.replicate 2400 0) 7 (List.length_replicate 2400 0)
    (by norm_num)

/-! ### C4: the ratio-and-count decision -/

/-- **C4.**  For every chunk that reaches the sub-frame voting step with
`totalFrameCount > 0`, the classifier's `has_speech` output equals
`speechRatio >= speechThreshold AND speechFrameCount >= 2`; in
particular, on a 5-sub-frame chunk with exactly 2 speech-flagged frames
and threshold 0.5 it returns `false`, and with exactly 3 speech-flagged
frames it returns `true`. -/
theorem c4_ratio_count_decision :
    (∀ (st : AudioState) (samples : List Int) (rms : ℚ)
        (vad : Nat → Option Bool),
      st.vadOk = true → ¬ samples.length = 0 →
      ¬ rms < (updateNoiseFloor st rms).noise_floor *
        adaptive_threshold_multiplier →
      ¬ (runFrames (updateNoiseFloor st rms) vad samples).totalCount = 0 →
      (processSamples st samples rms vad).1.2 =
        decide
          ((((runFrames (updateNoiseFloor st rms) vad samples).speechCount
              : ℚ) /
            ((runFrames (updateNoiseFloor st rms) vad samples).totalCount
              : ℚ) ≥ vad_speech_threshold) ∧
           2 ≤ (runFrames (updateNoiseFloor st rms) vad
             samples).speechCount)) ∧
    (processSamples initAudioState (List.replicate 1600 200) 1000
      (fun i => some (decide (i < 2)))).1.2 = false ∧
    (processSamples initAudioState (List.replicate 1600 200) 1000
      (fun i => some (decide (i < 3)))).1.2 = true := by
  have hup : updateNoiseFloor initAudioState 1000 =
      { noise_floor := 50, noise_samples := [1000], speech_frames := [],
        silence_frames := [], vadOk := true } := rfl
  have hne1600 : ¬ (List.replicate 1600 (200:ℤ)).length = 0 := by
    rw [List.length_replicate]
    norm_num
  have hgate : ¬ (1000:ℚ) <
      (updateNoiseFloor initAudioState 1000).noise_floor *
        adaptive_threshold_multiplier := by
    rw [hup]
    norm_num [adaptive_threshold_multiplier]
  refine ⟨?_, ?_, ?_⟩
  · intro st samples rms vad hv hne hhigh h0
    rw [processSamples_vote st samples rms vad hv hne hhigh]
    by_cases hd : (((runFrames (updateNoiseFloor st rms) vad
          samples).speechCount : ℚ) /
        ((runFrames (updateNoiseFloor st rms) vad samples).totalCount : ℚ)
          ≥ vad_speech_threshold) ∧
        2 ≤ (runFrames (updateNoiseFloor st rms) vad samples).speechCount
    · have hproc : (runFrames (updateNoiseFloor st rms) vad
          samples).processed ≠ [] := by
        have hle := runFrames_speechCount_le (updateNoiseFloor st rms) vad
          samples
        intro hnil
        rw [hnil] at hle
        simp only [List.length_nil, Nat.le_zero] at hle
        omega
      rw [votingStage_eq_true (updateNoiseFloor st rms) samples vad _ rfl
        h0 ⟨hd.1, hd.2, hproc⟩]
      exact (decide_eq_true hd).symm
    · rw [votingStage_eq_false (updateNoiseFloor st rms) samples vad _ rfl
        h0 (fun h => hd ⟨h.1, h.2.1⟩)]
      exact (decide_eq_false hd).symm
  · rw [processSamples_vote _ _ _ _ rfl hne1600 hgate, hup,
      votingStage_eq_false _ _ _ _ (runFrames_lt2 _)
        ((by norm_num : ¬ (5:Nat) = 0))
        (fun h => absurd h.1
          (by norm_num [vad_speech_threshold] :
            ¬ (((2:Nat):ℚ) / ((5:Nat):ℚ) ≥ vad_speech_threshold)))]
  · rw [processSamples_vote _ _ _ _ rfl hne1600 hgate, hup,
      votingStage_eq_true _ _ _ _ (runFrames_lt3 _)
        ((by norm_num : ¬ (5:Nat) = 0))
        ⟨(by norm_num [vad_speech_threshold] :
            (((3:Nat):ℚ) / ((5:Nat):ℚ) ≥ vad_speech_threshold)),
         (by norm_num : (2:Nat) ≤ 3), List.cons_ne_nil _ _⟩]

/-- **C4, witness.**  The general decision law applied at the concrete
3-of-5 chunk. -/
theorem c4_witness :
    (processSamples initAudioState (List.replicate 1600 200) 1000
      (fun i => some (decide (i < 3)))).1.2 =
      decide
        ((((runFrames (updateNoiseFloor initAudioState 1000)
            (fun i => some (decide (i < 3)))
            (List.replicate 1600 200)).speechCount : ℚ) /
          ((runFrames (updateNoiseFloor initAudioState 1000)
            (fun i => some (decide (i < 3)))
            (List.replicate 1600 200)).totalCount : ℚ) ≥
              vad_speech_threshold) ∧
         2 ≤ (runFrames (updateNoiseFloor initAudioState 1000)
           (fun i => some (decide (i < 3)))
           (List.replicate 1600 200)).speechCount) :=
  c4_ratio_count_decision.1 initAudioState (List.replicate 1600 200) 1000
    (fun i => some (decide (i < 3))) rfl
    (by rw [List.length_replicate]; norm_num)
    (by rw [show updateNoiseFloor initAudioState 1000 =
        { noise_floor := 50, noise_samples := [1000], speech_frames := [],
          silence_frames := [], vadOk := true } from rfl]
        norm_num [adaptive_threshold_multiplier])
    (by rw [runFrames_lt3]
        norm_num)

/-! ### C2: failure policy for erroring sub-frames -/

/-- **C2, counterexample.**  The claim asserts a sub-frame whose
`is_speech` call raises is counted as speech in `speech_frame_count`.  On
a concrete gate-passing chunk of 5 sub-frames whose oracle raises on
every call, the loop yields `speech_frame_count = 0` (not 5), even though
all 5 frames were kept in the output list, and the chunk is classified
`has_speech = false` (the claim would force ratio 5/5 and
`has_speech = true`). -/
theorem c2_counterexample :
    (runFrames (updateNoiseFloor initAudioState 1000) (fun _ => none)
      (List.replicate 1600 200)).totalCount = 5 ∧
    (runFrames (updateNoiseFloor initAudioState 1000) (fun _ => none)
      (List.replicate 1600 200)).processed.length = 5 ∧
    (runFrames (updateNoiseFloor initAudioState 1000) (fun _ => none)
      (List.replicate 1600 200)).speechCount = 0 ∧
    (processSamples initAudioState (List.replicate 1600 200) 1000
      (fun _ => none)).1.2 = false := by
  refine ⟨by rw [runFrames_allErr], by rw [runFrames_allErr]; rfl,
    by rw [runFrames_allErr], ?_⟩
  have hup : updateNoiseFloor initAudioState 1000 =
      { noise_floor := 50, noise_samples := [1000], speech_frames := [],
        silence_frames := [], vadOk := true } := rfl
  rw [processSamples_vote _ _ _ _ rfl
      (by rw [List.length_replicate]; norm_num)
      (by rw [hup]; norm_num [adaptive_threshold_multiplier]),
    votingStage_eq_false _ _ _ _ (runFrames_allErr _)
      ((by norm_num : ¬ (5:Nat) = 0))
      (fun h => absurd h.2.1 (by norm_num : ¬ ((2:Nat) ≤ 0)))]

/-- **C2, amended.**  A sub-frame whose `is_speech` call raises is
fail-open only with respect to the audio: it is appended to the output
frame list and counted in `total_frame_count`, but it is NOT added to
`speech_frame_count`, so errored frames weigh against the speech ratio
used by the decision. -/
theorem c2_error_fail_open (vad : Nat → Option Bool) (acc : LoopAcc)
    (frame : List Int) (hlen : frame.length = frame_size)
    (herr : vad acc.vadCalls = none) :
    (stepFrame vad acc frame).processed = acc.processed ++ [frame] ∧
    (stepFrame vad acc frame).totalCount = acc.totalCount + 1 ∧
    (stepFrame vad acc frame).speechCount = acc.speechCount := by
  rw [stepFrame_eq_err vad acc frame hlen herr]
  exact ⟨rfl, rfl, rfl⟩

/-- **C2, amended, witness.** -/
theorem c2_error_fail_open_witness :
    (stepFrame (fun _ => none)
      { speechCount := 0, totalCount := 0, processed := [],
        speechHist := [], silenceHist := [], vadCalls := 0 }
      (List.replicate 320 0)).processed = [] ++ [List.replicate 320 0] ∧
    (stepFrame (fun _ => none)
      { speechCount := 0, totalCount := 0, processed := [],
        speechHist := [], silenceHist := [], vadCalls := 0 }
      (List.replicate 320 0)).totalCount = 0 + 1 ∧
    (stepFrame (fun _ => none)
      { speechCount := 0, totalCount := 0, processed := [],
        speechHist := [], silenceHist := [], vadCalls := 0 }
      (List.replicate 320 0)).speechCount = 0 :=
  c2_error_fail_open (fun _ => none) _ (List.replicate 320 0) (len320 0) rfl

/-! ### C5: energy-gate short circuit -/

theorem padBytes_length (bs : List Nat) :
    (padBytes bs).length =
      if bs.length % 2 = 1 then bs.length + 1 else bs.length := by
  unfold padBytes
  split
  · rw [List.length_append]
    rfl
  · rfl

theorem padded_samples_ne_zero (bs : List Nat) (h : bs ≠ []) :
    ¬ (bytesToSamples (padBytes bs)).length = 0 := by
  rw [bytesToSamples_length, padBytes_length]
  have hlen : bs.length ≠ 0 := fun hz => h (List.eq_nil_of_length_eq_zero hz)
  split <;> omega

/-- **C5.**  A non-empty chunk whose RMS energy is strictly below the
dynamic threshold (post-update noise floor times the fixed multiplier) is
classified `has_speech = false`, the (padded) input is returned
unchanged, and the `is_speech` capability is never invoked (the call
count is 0). -/
theorem c5_energy_gate (st : AudioState) (audioBytes : List Nat) (rms : ℚ)
    (vad : Nat → Option Bool) (hv : st.vadOk = true)
    (hne : audioBytes ≠ [])
    (hlow : rms < (updateNoiseFloor st rms).noise_floor *
      adaptive_threshold_multiplier) :
    process_audio_chunk st audioBytes rms vad =
      ((padBytes audioBytes, false), updateNoiseFloor st rms, 0) := by
  rw [process_audio_chunk_vadOk st audioBytes rms vad hv,
    processSamples_reject st _ rms vad hv
      (padded_samples_ne_zero audioBytes hne) hlow]
  rfl

/-- **C5, witness.**  A two-byte zero chunk with RMS 0 against the
initial 50.0 noise floor. -/
theorem c5_energy_gate_witness :
    process_audio_chunk initAudioState [0, 0] 0 (fun _ => some true) =
      ((padBytes [0, 0], false), updateNoiseFloor initAudioState 0, 0) :=
  c5_energy_gate initAudioState [0, 0] 0 (fun _ => some true) rfl
    (List.cons_ne_nil 0 [0])
    (by rw [show updateNoiseFloor initAudioState 0 =
          { noise_floor := 50, noise_samples := [0], speech_frames := [],
            silence_frames := [], vadOk := true } from rfl]
        norm_num [adaptive_threshold_multiplier])

/-! ### C8: noise-floor estimator update -/

theorem admitWindow_eq (ns : List ℚ) (rms : ℚ)
    (_hlen : ns.length ≤ max_noise_samples) :
    admitWindow ns rms =
      (ns ++ [rms]).drop (ns.length + 1 - max_noise_samples) := by
  unfold admitWindow
  by_cases h : (ns ++ [rms]).length > max_noise_samples
  · rw [if_pos h]
    congr 1
    rw [List.length_append]
    rfl
  · rw [if_neg h]
    rw [List.length_append] at h
    have hz : ns.length + 1 - max_noise_samples = 0 := by
      simp only [List.length_cons, List.length_nil] at h
      omega
    rw [hz, List.drop_zero]

theorem admitWindow_getLast (ns : List ℚ) (rms : ℚ)
    (hlen : ns.length ≤ max_noise_samples) :
    (admitWindow ns rms).getLast? = some rms := by
  rw [admitWindow_eq ns rms hlen,
    List.drop_append_of_le_length
      (by simp only [max_noise_samples] at hlen ⊢; omega),
    List.getLast?_concat]

theorem admitWindow_length (ns : List ℚ) (rms : ℚ)
    (hlen : ns.length ≤ max_noise_samples) :
    (admitWindow ns rms).length ≤ max_noise_samples := by
  rw [admitWindow_eq ns rms hlen, List.length_drop, List.length_append]
  simp only [List.length_cons, List.length_nil]
  have : (0:Nat) < max_noise_samples := by norm_num [max_noise_samples]
  omega

theorem updateNoiseFloor_rejected (st : AudioState) (rms : ℚ)
    (hadm : ¬ (st.speech_frames.length = 0 ∨
      st.silence_frames.length > st.speech_frames.length)) :
    updateNoiseFloor st rms = st := by
  unfold updateNoiseFloor
  rw [if_neg hadm]

theorem updateNoiseFloor_admit_big (st : AudioState) (rms : ℚ)
    (hadm : st.speech_frames.length = 0 ∨
      st.silence_frames.length > st.speech_frames.length)
    (h10 : (admitWindow st.noise_samples rms).length ≥ 10) :
    updateNoiseFloor st rms =
      { st with noise_samples := admitWindow st.noise_samples rms,
                noise_floor := (9/10) * st.noise_floor +
                  (1/10) * percentile25 (admitWindow st.noise_samples rms) }
    := by
  unfold updateNoiseFloor
  rw [if_pos hadm, if_pos h10]

theorem updateNoiseFloor_admit_small (st : AudioState) (rms : ℚ)
    (hadm : st.speech_frames.length = 0 ∨
      st.silence_frames.length > st.speech_frames.length)
    (h10 : ¬ (admitWindow st.noise_samples rms).length ≥ 10) :
    updateNoiseFloor st rms =
      { st with noise_samples := admitWindow st.noise_samples rms } := by
  unfold updateNoiseFloor
  rw [if_pos hadm, if_neg h10]

/-- **C8.**  The estimator admits the chunk's RMS into its window exactly
when the speech history is empty or silence classifications outnumber
speech classifications (otherwise the whole state is unchanged); the
window is the last 100 admitted energies (the admitted RMS being the
newest); and after an admission the estimate becomes
`0.9 * previous + 0.1 * (25th percentile of the window)` when the window
holds at least 10 samples, and is unchanged when it holds fewer. -/
theorem c8_noise_floor_update (st : AudioState) (rms : ℚ)
    (hlen : st.noise_samples.length ≤ max_noise_samples) :
    (¬ (st.speech_frames.length = 0 ∨
        st.silence_frames.length > st.speech_frames.length) →
      updateNoiseFloor st rms = st) ∧
    ((st.speech_frames.length = 0 ∨
        st.silence_frames.length > st.speech_frames.length) →
      (updateNoiseFloor st rms).noise_samples =
        (st.noise_samples ++ [rms]).drop
          (st.noise_samples.length + 1 - max_noise_samples) ∧
      (updateNoiseFloor st rms).noise_samples.length ≤ max_noise_samples ∧
      (updateNoiseFloor st rms).noise_samples.getLast? = some rms ∧
      (10 ≤ (updateNoiseFloor st rms).noise_samples.length →
        (updateNoiseFloor st rms).noise_floor =
          (9/10) * st.noise_floor +
            (1/10) * percentile25 (updateNoiseFloor st rms).noise_samples)
        ∧
      ((updateNoiseFloor st rms).noise_samples.length < 10 →
        (updateNoiseFloor st rms).noise_floor = st.noise_floor)) := by
  constructor
  · exact updateNoiseFloor_rejected st rms
  · intro hadm
    by_cases h10 : (admitWindow st.noise_samples rms).length ≥ 10
    · rw [updateNoiseFloor_admit_big st rms hadm h10]
      refine ⟨admitWindow_eq st.noise_samples rms hlen,
        admitWindow_length st.noise_samples rms hlen,
        admitWindow_getLast st.noise_samples rms hlen,
        fun _ => rfl,
        fun hlt => absurd
          (show (admitWindow st.noise_samples rms).length < 10 from hlt)
          (by omega)⟩
    · rw [updateNoiseFloor_admit_small st rms hadm h10]
      refine ⟨admitWindow_eq st.noise_samples rms hlen,
        admitWindow_length st.noise_samples rms hlen,
        admitWindow_getLast st.noise_samples rms hlen,
        fun hge => absurd hge h10, fun _ => rfl⟩

/-- **C8, witness.**  A state with 9 admitted samples and empty
histories: the 10th admission fills the window and blends the floor. -/
theorem c8_noise_floor_update_witness :
    (¬ (([] : List Bool).length = 0 ∨
        ([] : List Bool).length > ([] : List Bool).length) →
      updateNoiseFloor
        { noise_floor := 50, noise_samples := List.replicate 9 20,
          speech_frames := [], silence_frames := [], vadOk := true } 30 =
        { noise_floor := 50, noise_samples := List.replicate 9 20,
          speech_frames := [], silence_frames := [], vadOk := true }) ∧
    ((([] : List Bool).length = 0 ∨
        ([] : List Bool).length > ([] : List Bool).length) →
      (updateNoiseFloor
        { noise_floor := 50, noise_samples := List.replicate 9 20,
          speech_frames := [], silence_frames := [], vadOk := true }
        30).noise_samples =
        ((List.replicate 9 20 : List ℚ) ++ [30]).drop
          ((List.replicate 9 (20:ℚ)).length + 1 - max_noise_samples) ∧
      (updateNoiseFloor
        { noise_floor := 50, noise_samples := List.replicate 9 20,
          speech_frames := [], silence_frames := [], vadOk := true }
        30).noise_samples.length ≤ max_noise_samples ∧
      (updateNoiseFloor
        { noise_floor := 50, noise_samples := List.replicate 9 20,
          speech_frames := [], silence_frames := [], vadOk := true }
        30).noise_samples.getLast? = some 30 ∧
      (10 ≤ (updateNoiseFloor
        { noise_floor := 50, noise_samples := List.replicate 9 20,
          speech_frames := [], silence_frames := [], vadOk := true }
        30).noise_samples.length →
        (updateNoiseFloor
          { noise_floor := 50, noise_samples := List.replicate 9 20,
            speech_frames := [], silence_frames := [], vadOk := true }
          30).noise_floor =
          (9/10) * 50 +
            (1/10) * percentile25 (updateNoiseFloor
              { noise_floor := 50, noise_samples := List.replicate 9 20,
                speech_frames := [], silence_frames := [], vadOk := true }
              30).noise_samples) ∧
      ((updateNoiseFloor
        { noise_floor := 50, noise_samples := List.replicate 9 20,
          speech_frames := [], silence_frames := [], vadOk := true }
        30).noise_samples.length < 10 →
        (updateNoiseFloor
          { noise_floor := 50, noise_samples := List.replicate 9 20,
            speech_frames := [], silence_frames := [], vadOk := true }
          30).noise_floor = 50)) :=
  c8_noise_floor_update
    { noise_floor := 50, noise_samples := List.replicate 9 20,
      speech_frames := [], silence_frames := [], vadOk := true } 30
    (by rw [List.length_replicate]; norm_num [max_noise_samples])

/-! ### C6: minimum-duration discard on flush -/

/-- **C6.**  A non-empty flush whose combined blob is shorter than
`min_audio_duration` dispatches nothing but still resets the buffer and
`last_speech_time`; a blob at or above the minimum resets them and
dispatches the combined blob.  Concretely, a 1,000-sample buffer at
16 kHz (0.0625 s < 0.15 s) is discarded with the state reset. -/
theorem c6_min_duration_flush :
    (∀ s : Session, s.audio_buffer ≠ [] →
      (get_audio_duration s.audio_buffer.flatten / 1000 <
          s.min_audio_duration →
        processBuffered s =
          ({ s with audio_buffer := [], last_speech_time := none },
           none)) ∧
      (¬ get_audio_duration s.audio_buffer.flatten / 1000 <
          s.min_audio_duration →
        processBuffered s =
          ({ s with audio_buffer := [], last_speech_time := none },
           some s.audio_buffer.flatten))) ∧
    (processBuffered
      { initSession with
          audio_buffer := [samplesToBytes (List.replicate 1000 0)],
          last_speech_time := some 0 }).2 = none ∧
    (processBuffered
      { initSession with
          audio_buffer := [samplesToBytes (List.replicate 1000 0)],
          last_speech_time := some 0 }).1.audio_buffer = [] ∧
    (processBuffered
      { initSession with
          audio_buffer := [samplesToBytes (List.replicate 1000 0)],
          last_speech_time := some 0 }).1.last_speech_time = none := by
  have hgen : ∀ s : Session, s.audio_buffer ≠ [] →
      (get_audio_duration s.audio_buffer.flatten / 1000 <
          s.min_audio_duration →
        processBuffered s =
          ({ s with audio_buffer := [], last_speech_time := none },
           none)) ∧
      (¬ get_audio_duration s.audio_buffer.flatten / 1000 <
          s.min_audio_duration →
        processBuffered s =
          ({ s with audio_buffer := [], last_speech_time := none },
           some s.audio_buffer.flatten)) := by
    intro s hbuf
    constructor
    · intro hshort
      unfold processBuffered
      rw [if_neg hbuf, if_pos hshort]
    · intro hlong
      unfold processBuffered
      rw [if_neg hbuf, if_neg hlong]
  have hdur : get_audio_duration
      (List.flatten [samplesToBytes (List.replicate 1000 (0:ℤ))]) / 1000 <
      ({ initSession with
          audio_buffer := [samplesToBytes (List.replicate 1000 0)],
          last_speech_time := some 0 } : Session).min_audio_duration := by
    rw [List.flatten_cons, List.flatten_nil, List.append_nil,
      duration_samplesToBytes _
        (range_replicate 1000 0 (by norm_num) (by norm_num)),
      List.length_replicate]
    show (1000 : ℚ) / (sample_rate : ℚ) * 1000 / 1000 <
      initSession.min_audio_duration
    norm_num [sample_rate, initSession]
  have hinst := (hgen
    { initSession with
        audio_buffer := [samplesToBytes (List.replicate 1000 0)],
        last_speech_time := some 0 }
    (List.cons_ne_nil _ _)).1 hdur
  exact ⟨hgen, by rw [hinst], by rw [hinst], by rw [hinst]⟩

/-- **C6, witness.**  The general flush law applied at the concrete
1,000-sample buffer. -/
theorem c6_min_duration_flush_witness :
    processBuffered
      { initSession with
          audio_buffer := [samplesToBytes (List.replicate 1000 0)],
          last_speech_time := some 0 } =
      ({ { initSession with
            audio_buffer := [samplesToBytes (List.replicate 1000 0)],
            last_speech_time := some 0 } with
          audio_buffer := [], last_speech_time := none }, none) :=
  (c6_min_duration_flush.1
    { initSession with
        audio_buffer := [samplesToBytes (List.replicate 1000 0)],
        last_speech_time := some 0 }
    (List.cons_ne_nil _ _)).1
    (by rw [List.flatten_cons, List.flatten_nil, List.append_nil,
          duration_samplesToBytes _
            (range_replicate 1000 0 (by norm_num) (by norm_num)),
          List.length_replicate]
        show (1000 : ℚ) / (sample_rate : ℚ) * 1000 / 1000 <
          initSession.min_audio_duration
        norm_num [sample_rate, initSession])

/-! ### C7: exactly one flush per utterance -/

/-- A flush of a non-empty buffer always leaves the session with an empty
buffer and a cleared timestamp, whether or not the blob was dispatched. -/
theorem processBuffered_resets (s : Session)
    (hbuf : s.audio_buffer ≠ []) :
    (processBuffered s).1 =
      { s with audio_buffer := [], last_speech_time := none } := by
  unfold processBuffered
  rw [if_neg hbuf]
  by_cases h : get_audio_duration s.audio_buffer.flatten / 1000 <
      s.min_audio_duration
  · rw [if_pos h]
  · rw [if_neg h]

theorem silenceStep_noTimestamp (s : Session) (e : SilenceEv)
    (hl : s.last_speech_time = none) : silenceStep s e = (s, false) := by
  unfold silenceStep
  rw [hl]

theorem silenceStep_fires (s : Session) (e : SilenceEv) (t0 : ℚ)
    (hl : s.last_speech_time = some t0) (hb : s.audio_buffer ≠ [])
    (hq : e.time - t0 ≥ s.speech_timeout) :
    silenceStep s e = ((processBuffered s).1, true) := by
  unfold silenceStep
  rw [hl]
  exact if_pos ⟨hb, hq⟩

theorem silenceStep_holds (s : Session) (e : SilenceEv) (t0 : ℚ)
    (hl : s.last_speech_time = some t0)
    (hq : ¬ e.time - t0 ≥ s.speech_timeout) :
    silenceStep s e = (s, false) := by
  unfold silenceStep
  rw [hl]
  exact if_neg (fun h => hq h.2)

/-- Once the timestamp is cleared, no silence event ever fires again. -/
theorem runSilence_noTimestamp (s : Session)
    (hl : s.last_speech_time = none) :
    ∀ evs : List SilenceEv,
      runSilence s evs = (s, List.replicate evs.length false)
  | [] => rfl
  | e :: es => by
    unfold runSilence
    rw [silenceStep_noTimestamp s e hl, runSilence_noTimestamp s hl es,
      List.length_cons, List.replicate_succ]

theorem count_true_replicate_false (n : Nat) :
    (List.replicate n false).count true = 0 := by
  induction n with
  | zero => rfl
  | succ k ih => rw [List.replicate_succ, List.count_cons]; simp [ih]

theorem markFirst_cons_true (bs : List Bool) :
    markFirst (true :: bs) = true :: List.replicate bs.length false := rfl

theorem markFirst_cons_false (bs : List Bool) :
    markFirst (false :: bs) = false :: markFirst bs := rfl

/-- **C7.**  Grounding: the inline no-speech path of `handle_audio_chunk`
and a watchdog tick transform the session exactly as the common
`silenceStep`.  Main law: starting from a session with a non-empty
buffer and `last_speech_time = some t0` (the state right after a speech
chunk at `t0`), any sequence of silence chunks and watchdog ticks
produces a flush exactly at the first event whose elapsed silence reaches
`speech_timeout`, and never again afterwards: the per-event flush flags
equal `markFirst` of the qualifying-event flags, and the total number of
flushes is 1 if some event qualifies and 0 otherwise. -/
theorem c7_single_flush :
    (∀ (shared : AudioState) (s : Session) (audioBytes : List Nat)
        (rms : ℚ) (vad : Nat → Option Bool) (now : ℚ),
      (process_audio_chunk shared audioBytes rms vad).1.2 = false →
      (handleAudioChunk shared s audioBytes rms vad now).2.1 =
        (silenceStep s (SilenceEv.chunk now)).1) ∧
    (∀ (s : Session) (now : ℚ),
      (watchdogTick s now).1 = (silenceStep s (SilenceEv.tick now)).1) ∧
    (∀ (s0 : Session) (t0 : ℚ) (evs : List SilenceEv),
      s0.audio_buffer ≠ [] → s0.last_speech_time = some t0 →
      (runSilence s0 evs).2 =
        markFirst (evs.map fun e =>
          decide (e.time - t0 ≥ s0.speech_timeout)) ∧
      (runSilence s0 evs).2.count true =
        (if evs.any (fun e => decide (e.time - t0 ≥ s0.speech_timeout))
          then 1 else 0)) := by
  refine ⟨?_, ?_, ?_⟩
  · intro shared s audioBytes rms vad now h
    simp only [handleAudioChunk]
    rw [h]
    simp only [Bool.false_eq_true, if_false]
    unfold silenceStep
    cases hls : s.last_speech_time with
    | none => rfl
    | some t0 =>
      simp only [SilenceEv.time]
      by_cases hc : s.audio_buffer ≠ [] ∧ now - t0 ≥ s.speech_timeout
      · rw [if_pos hc, if_pos hc]
      · rw [if_neg hc, if_neg hc]
  · intro s now
    unfold watchdogTick silenceStep
    cases hls : s.last_speech_time with
    | none => rfl
    | some t0 =>
      simp only [SilenceEv.time]
      by_cases hc : s.audio_buffer ≠ [] ∧ now - t0 ≥ s.speech_timeout
      · rw [if_pos hc, if_pos hc]
      · rw [if_neg hc, if_neg hc]
  · intro s0 t0 evs hbuf hlast
    induction evs with
    | nil => exact ⟨rfl, rfl⟩
    | cons e es ih =>
      by_cases hq : e.time - t0 ≥ s0.speech_timeout
      · have hstep := silenceStep_fires s0 e t0 hlast hbuf hq
        have hreset := processBuffered_resets s0 hbuf
        have hrest := runSilence_noTimestamp (processBuffered s0).1
          (by rw [hreset]) es
        constructor
        · unfold runSilence
          rw [hstep]
          show true :: (runSilence (processBuffered s0).1 es).2 = _
          rw [hrest, List.map_cons, decide_eq_true hq,
            markFirst_cons_true, List.length_map]
        · unfold runSilence
          rw [hstep]
          show (true ::
            (runSilence (processBuffered s0).1 es).2).count true = _
          rw [hrest]
          show (true :: List.replicate es.length false).count true = _
          rw [List.count_cons, count_true_replicate_false, List.any_cons,
            decide_eq_true hq]
          simp
      · have hstep := silenceStep_holds s0 e t0 hlast hq
        constructor
        · unfold runSilence
          rw [hstep]
          show false :: (runSilence s0 es).2 = _
          rw [ih.1, List.map_cons, decide_eq_false hq,
            markFirst_cons_false]
        · unfold runSilence
          rw [hstep]
          show (false :: (runSilence s0 es).2).count true = _
          rw [List.count_cons, ih.2, List.any_cons, decide_eq_false hq]
          simp

/-- **C7, witness.**  The single-flush law at a concrete session (buffer
holding one blob, speech at `t0 = 0`, timeout 1.5 s) and one silence
chunk at `t = 2`. -/
theorem c7_single_flush_witness :
    (runSilence
      { initSession with audio_buffer := [[0, 0]],
                         last_speech_time := some 0 }
      [SilenceEv.chunk 2]).2 =
      markFirst ([SilenceEv.chunk 2].map fun e =>
        decide (e.time - 0 ≥
          ({ initSession with audio_buffer := [[0, 0]],
                              last_speech_time := some 0 } :
            Session).speech_timeout)) ∧
    (runSilence
      { initSession with audio_buffer := [[0, 0]],
                         last_speech_time := some 0 }
      [SilenceEv.chunk 2]).2.count true =
      (if [SilenceEv.chunk 2].any (fun e =>
          decide (e.time - 0 ≥
            ({ initSession with audio_buffer := [[0, 0]],
                                last_speech_time := some 0 } :
              Session).speech_timeout))
        then 1 else 0) :=
  c7_single_flush.2.2
    { initSession with audio_buffer := [[0, 0]],
                       last_speech_time := some 0 }
    0 [SilenceEv.chunk 2] (List.cons_ne_nil _ _) rfl

/-! ### C1: the empty-buffer / cleared-timestamp invariant -/

theorem processBuffered_inv (s : Session) (h : bufferInv s) :
    bufferInv (processBuffered s).1 := by
  by_cases hb : s.audio_buffer = []
  · unfold processBuffered
    rw [if_pos hb]
    exact h
  · rw [processBuffered_resets s hb]
    exact fun _ => rfl

theorem checkTranscriptionTrigger_inv (s : Session) (h : bufferInv s) :
    bufferInv (checkTranscriptionTrigger s).1 := by
  by_cases hb : s.audio_buffer = []
  · unfold checkTranscriptionTrigger
    rw [if_pos hb]
    exact h
  · unfold checkTranscriptionTrigger
    rw [if_neg hb]
    by_cases hd : get_audio_duration s.audio_buffer.flatten / 1000 ≥
        s.max_buffer_duration
    · rw [if_pos hd]
      exact processBuffered_inv s h
    · rw [if_neg hd]
      exact h

theorem watchdogTick_inv (s : Session) (now : ℚ) (h : bufferInv s) :
    bufferInv (watchdogTick s now).1 := by
  unfold watchdogTick
  cases hls : s.last_speech_time with
  | none => exact h
  | some t0 =>
    show bufferInv (if s.audio_buffer ≠ [] ∧ now - t0 ≥ s.speech_timeout
      then processBuffered s else (s, none)).1
    by_cases hc : s.audio_buffer ≠ [] ∧ now - t0 ≥ s.speech_timeout
    · rw [if_pos hc]
      exact processBuffered_inv s h
    · rw [if_neg hc]
      exact h

theorem handleAudioChunk_inv (shared : AudioState) (s : Session)
    (audioBytes : List Nat) (rms : ℚ) (vad : Nat → Option Bool) (now : ℚ)
    (h : bufferInv s) :
    bufferInv (handleAudioChunk shared s audioBytes rms vad now).2.1 := by
  unfold handleAudioChunk
  by_cases hflag : (process_audio_chunk shared audioBytes rms vad).1.2
    = true
  · rw [if_pos hflag]
    refine checkTranscriptionTrigger_inv _ (fun hemp => absurd hemp ?_)
    show s.audio_buffer ++
      [(process_audio_chunk shared audioBytes rms vad).1.1] ≠ []
    exact List.append_ne_nil_of_right_ne_nil _ (List.cons_ne_nil _ _)
  · rw [if_neg hflag]
    cases hls : s.last_speech_time with
    | none => exact h
    | some t0 =>
      show bufferInv (if s.audio_buffer ≠ [] ∧ now - t0 ≥ s.speech_timeout
        then ((process_audio_chunk shared audioBytes rms vad).2.1,
          processBuffered s)
        else ((process_audio_chunk shared audioBytes rms vad).2.1, s,
          none)).2.1
      by_cases hc : s.audio_buffer ≠ [] ∧ now - t0 ≥ s.speech_timeout
      · rw [if_pos hc]
        exact processBuffered_inv s h
      · rw [if_neg hc]
        exact h

/-- **C1, counterexample.**  The claim asserts the invariant "empty
buffer implies cleared `last_speech_time`" across every listed operation,
including the manual `transcription_request` handler.  Starting from a
fresh session, a gate-passing speech chunk at `t = 5` fills the buffer
and sets the timestamp; the manual handler then empties the buffer but
leaves `last_speech_time = some 5`, a reachable state violating the
invariant. -/
theorem c1_counterexample :
    (handleTranscriptionRequest
      (handleAudioChunk initAudioState initSession (toneChunk 200) 200
        vadAlways 5).2.1).1.audio_buffer = [] ∧
    (handleTranscriptionRequest
      (handleAudioChunk initAudioState initSession (toneChunk 200) 200
        vadAlways 5).2.1).1.last_speech_time = some 5 := by
  have hstep := handleAudioChunk_tone initAudioState initSession 200 200 5
    rfl (by norm_num) (by norm_num)
    (by rw [show updateNoiseFloor initAudioState 200 =
        { noise_floor := 50, noise_samples := [200], speech_frames := [],
          silence_frames := [], vadOk := true } from rfl]
        norm_num [adaptive_threshold_multiplier])
    rfl rfl
  rw [hstep]
  have hreq : handleTranscriptionRequest
      { initSession with audio_buffer := [toneChunk 200],
                         last_speech_time := some 5 } =
      ({ initSession with audio_buffer := [],
                          last_speech_time := some 5 },
       some (List.flatten [toneChunk 200])) := by
    unfold handleTranscriptionRequest
    rw [if_neg (show ¬ ([toneChunk 200] : List (List Nat)) = [] from
      List.cons_ne_nil _ _)]
  rw [hreq]
  exact ⟨rfl, rfl⟩

/-- **C1, amended.**  The invariant "empty buffer implies cleared
`last_speech_time`" is preserved by audio-chunk ingestion (including its
inline silence-timeout and max-duration flushes), by
`_process_buffered_audio` itself, and by the watchdog flush — but not by
the manual `transcription_request` handler, which clears the buffer while
leaving the timestamp set (see the counterexample). -/
theorem c1_empty_buffer_invariant :
    (∀ (shared : AudioState) (s : Session) (audioBytes : List Nat)
        (rms : ℚ) (vad : Nat → Option Bool) (now : ℚ), bufferInv s →
      bufferInv (handleAudioChunk shared s audioBytes rms vad now).2.1) ∧
    (∀ s : Session, bufferInv s →
      bufferInv (processBuffered s).1) ∧
    (∀ s : Session, bufferInv s →
      bufferInv (checkTranscriptionTrigger s).1) ∧
    (∀ (s : Session) (now : ℚ), bufferInv s →
      bufferInv (watchdogTick s now).1) :=
  ⟨fun shared s audioBytes rms vad now h =>
      handleAudioChunk_inv shared s audioBytes rms vad now h,
   fun s h => processBuffered_inv s h,
   fun s h => checkTranscriptionTrigger_inv s h,
   fun s now h => watchdogTick_inv s now h⟩

/-- **C1, amended, witness.**  Each preserved operation applied to the
fresh session, whose invariant holds by construction. -/
theorem c1_empty_buffer_invariant_witness :
    bufferInv (handleAudioChunk initAudioState initSession zeroChunk 0
      vadAlways 0).2.1 ∧
    bufferInv (processBuffered initSession).1 ∧
    bufferInv (checkTranscriptionTrigger initSession).1 ∧
    bufferInv (watchdogTick initSession 0).1 :=
  ⟨c1_empty_buffer_invariant.1 initAudioState initSession zeroChunk 0
      vadAlways 0 (fun _ => rfl),
   c1_empty_buffer_invariant.2.1 initSession (fun _ => rfl),
   c1_empty_buffer_invariant.2.2.1 initSession (fun _ => rfl),
   c1_empty_buffer_invariant.2.2.2 initSession 0 (fun _ => rfl)⟩

/-! ### C9: the noise-floor estimator is shared across sessions -/

theorem sorted_replicate (n : Nat) (x : ℚ) :
    List.Sorted (· ≤ ·) (List.replicate n x) := by
  induction n with
  | zero => exact List.sorted_nil
  | succ k ih =>
    rw [List.replicate_succ, List.sorted_cons]
    exact ⟨fun y hy => le_of_eq (List.eq_of_mem_replicate hy).symm, ih⟩

theorem sorted_replicate_concat (n : Nat) (x y : ℚ) (hxy : x ≤ y) :
    List.Sorted (· ≤ ·) (List.replicate n x ++ [y]) := by
  refine List.pairwise_append.mpr
    ⟨sorted_replicate n x, List.pairwise_singleton _ _,
     fun a ha b hb => ?_⟩
  rw [List.eq_of_mem_replicate ha, List.mem_singleton.mp hb]
  exact hxy

theorem percentile25_replicate (n : Nat) (x : ℚ) (h : n / 4 < n) :
    percentile25 (List.replicate n x) = x := by
  unfold percentile25
  rw [List.mergeSort_eq_self (sorted_replicate n x), List.length_replicate,
    List.getD_eq_getElem?_getD, List.getElem?_replicate, if_pos h]
  rfl

theorem percentile25_replicate_concat (n : Nat) (x y : ℚ) (hxy : x ≤ y)
    (hidx : (n + 1) / 4 < n) :
    percentile25 (List.replicate n x ++ [y]) = x := by
  unfold percentile25
  rw [List.mergeSort_eq_self (sorted_replicate_concat n x y hxy),
    List.length_append, List.length_replicate,
    show ([y] : List ℚ).length = 1 from rfl,
    List.getD_eq_getElem?_getD, List.getElem?_append,
    if_pos (show (n + 1) / 4 < (List.replicate n x).length by
      rw [List.length_replicate]; exact hidx),
    List.getElem?_replicate, if_pos hidx]
  rfl

/-- The shared-state component of `handle_audio_chunk`'s result is the
state of the module-level `audio_service` after this chunk's
classification, independent of the session. -/
theorem handleAudioChunk_fst (shared : AudioState) (s : Session)
    (audioBytes : List Nat) (rms : ℚ) (vad : Nat → Option Bool) (now : ℚ) :
    (handleAudioChunk shared s audioBytes rms vad now).1 =
      (process_audio_chunk shared audioBytes rms vad).2.1 := by
  unfold handleAudioChunk
  by_cases hflag : (process_audio_chunk shared audioBytes rms vad).1.2
    = true
  · rw [if_pos hflag]
  · rw [if_neg hflag]
    cases hls : s.last_speech_time with
    | none => rfl
    | some t0 =>
      show (if s.audio_buffer ≠ [] ∧ now - t0 ≥ s.speech_timeout
        then ((process_audio_chunk shared audioBytes rms vad).2.1,
          processBuffered s)
        else ((process_audio_chunk shared audioBytes rms vad).2.1, s,
          none)).1 = _
      by_cases hc : s.audio_buffer ≠ [] ∧ now - t0 ≥ s.speech_timeout
      · rw [if_pos hc]
      · rw [if_neg hc]

/-- One chunk of session A's zero-RMS audio through the real handler. -/
def c9AStep (w : AudioState × Session) : AudioState × Session :=
  ((handleAudioChunk w.1 w.2 zeroChunk 0 vadAlways 0).1,
   (handleAudioChunk w.1 w.2 zeroChunk 0 vadAlways 0).2.1)

/-- The shared audio state and session A's state after session A has
processed 12 zero-RMS chunks, starting from the freshly constructed
global service. -/
def c9AfterA : AudioState × Session :=
  c9AStep (c9AStep (c9AStep (c9AStep (c9AStep (c9AStep (c9AStep (c9AStep
    (c9AStep (c9AStep (c9AStep (c9AStep (initAudioState,
      initSession))))))))))))

/-- The shared state fabricated by session A's run: `k` admitted zero
energies and a (possibly decayed) floor `f`. -/
def zeroFloorState (k : Nat) (f : ℚ) : AudioState :=
  { noise_floor := f, noise_samples := List.replicate k 0,
    speech_frames := [], silence_frames := [], vadOk := true }

theorem c9AStep_eq (st : AudioState) (s : Session) (hv : st.vadOk = true)
    (hls : s.last_speech_time = none)
    (hgate : (0:ℚ) < (updateNoiseFloor st 0).noise_floor *
      adaptive_threshold_multiplier) :
    c9AStep (st, s) = (updateNoiseFloor st 0, s) := by
  have h1 : process_audio_chunk st zeroChunk 0 vadAlways =
      ((zeroChunk, false), updateNoiseFloor st 0, 0) := by
    rw [process_audio_chunk_vadOk _ _ _ _ hv]
    have hPS : processSamples st (bytesToSamples (padBytes zeroChunk)) 0
        vadAlways = (([0], false), updateNoiseFloor st 0, 0) := by
      show processSamples st [0] 0 vadAlways = _
      exact processSamples_reject st [0] 0 vadAlways hv (by norm_num)
        hgate
    rw [hPS]
    rfl
  unfold c9AStep handleAudioChunk
  rw [h1, hls]
  rfl

/-- **C9, counterexample.**  The claim asserts per-session isolation of
the noise-floor estimator.  Against the shared module-level
`audio_service` state this fails: a 640-sample tone chunk of amplitude
100 from session B is rejected by the energy gate when B is alone
(RMS 100 < 50 * 2.5), so nothing is buffered; but after session A has
fed 12 zero-RMS chunks through its own handler, the shared floor has
decayed to 36.45 (then 32.805 after B's own update, threshold 82.0125),
so the very same chunk from B is now classified as speech and lands in
B's buffer. -/
theorem c9_counterexample :
    (handleAudioChunk initAudioState initSession (toneChunk 100) 100
      vadAlways 0).2.1.audio_buffer = [] ∧
    (handleAudioChunk c9AfterA.1 initSession (toneChunk 100) 100
      vadAlways 0).2.1.audio_buffer ≠ [] := by
  constructor
  · have hbase : (process_audio_chunk initAudioState (toneChunk 100) 100
        vadAlways).1 = (toneChunk 100, false) := by
      rw [process_audio_chunk_vadOk _ _ _ _ rfl,
        toneChunk_samples 100 (by norm_num) (by norm_num),
        processSamples_reject initAudioState _ 100 vadAlways rfl
          (by rw [List.length_replicate]; norm_num)
          (by rw [show updateNoiseFloor initAudioState 100 =
              { noise_floor := 50, noise_samples := [100],
                speech_frames := [], silence_frames := [],
                vadOk := true } from rfl]
              norm_num [adaptive_threshold_multiplier]),
        show padBytes (toneChunk 100) = toneChunk 100 from by
          unfold toneChunk
          exact padBytes_samplesToBytes _]
      rfl
    unfold handleAudioChunk
    rw [hbase]
    rfl
  · have e10 : updateNoiseFloor (zeroFloorState 9 50) 0 =
        zeroFloorState 10 45 := by
      rw [show updateNoiseFloor (zeroFloorState 9 50) 0 =
          { noise_floor := 9/10 * 50 +
              1/10 * percentile25 (List.replicate 10 0),
            noise_samples := List.replicate 10 0, speech_frames := [],
            silence_frames := [], vadOk := true } from rfl,
        percentile25_replicate 10 0 (by norm_num)]
      unfold zeroFloorState
      congr 1
      norm_num
    have e11 : updateNoiseFloor (zeroFloorState 10 45) 0 =
        zeroFloorState 11 (81/2) := by
      rw [show updateNoiseFloor (zeroFloorState 10 45) 0 =
          { noise_floor := 9/10 * 45 +
              1/10 * percentile25 (List.replicate 11 0),
            noise_samples := List.replicate 11 0, speech_frames := [],
            silence_frames := [], vadOk := true } from rfl,
        percentile25_replicate 11 0 (by norm_num)]
      unfold zeroFloorState
      congr 1
      norm_num
    have e12 : updateNoiseFloor (zeroFloorState 11 (81/2)) 0 =
        zeroFloorState 12 (729/20) := by
      rw [show updateNoiseFloor (zeroFloorState 11 (81/2)) 0 =
          { noise_floor := 9/10 * (81/2) +
              1/10 * percentile25 (List.replicate 12 0),
            noise_samples := List.replicate 12 0, speech_frames := [],
            silence_frames := [], vadOk := true } from rfl,
        percentile25_replicate 12 0 (by norm_num)]
      unfold zeroFloorState
      congr 1
      norm_num
    have hA : c9AfterA = (zeroFloorState 12 (729/20), initSession) := by
      unfold c9AfterA
      rw [c9AStep_eq initAudioState initSession rfl rfl
          (by rw [show updateNoiseFloor initAudioState 0 =
              zeroFloorState 1 50 from rfl]
              norm_num [zeroFloorState, adaptive_threshold_multiplier]),
        show updateNoiseFloor initAudioState 0 = zeroFloorState 1 50
          from rfl]
      rw [c9AStep_eq (zeroFloorState 1 50) initSession rfl rfl
          (by rw [show updateNoiseFloor (zeroFloorState 1 50) 0 =
              zeroFloorState 2 50 from rfl]
              norm_num [zeroFloorState, adaptive_threshold_multiplier]),
        show updateNoiseFloor (zeroFloorState 1 50) 0 = zeroFloorState 2 50
          from rfl]
      rw [c9AStep_eq (zeroFloorState 2 50) initSession rfl rfl
          (by rw [show updateNoiseFloor (zeroFloorState 2 50) 0 =
              zeroFloorState 3 50 from rfl]
              norm_num [zeroFloorState, adaptive_threshold_multiplier]),
        show updateNoiseFloor (zeroFloorState 2 50) 0 = zeroFloorState 3 50
          from rfl]
      rw [c9AStep_eq (zeroFloorState 3 50) initSession rfl rfl
          (by rw [show updateNoiseFloor (zeroFloorState 3 50) 0 =
              zeroFloorState 4 50 from rfl]
              norm_num [zeroFloorState, adaptive_threshold_multiplier]),
        show updateNoiseFloor (zeroFloorState 3 50) 0 = zeroFloorState 4 50
          from rfl]
      rw [c9AStep_eq (zeroFloorState 4 50) initSession rfl rfl
          (by rw [show updateNoiseFloor (zeroFloorState 4 50) 0 =
              zeroFloorState 5 50 from rfl]
              norm_num [zeroFloorState, adaptive_threshold_multiplier]),
        show updateNoiseFloor (zeroFloorState 4 50) 0 = zeroFloorState 5 50
          from rfl]
      rw [c9AStep_eq (zeroFloorState 5 50) initSession rfl rfl
          (by rw [show updateNoiseFloor (zeroFloorState 5 50) 0 =
              zeroFloorState 6 50 from rfl]
              norm_num [zeroFloorState, adaptive_threshold_multiplier]),
        show updateNoiseFloor (zeroFloorState 5 50) 0 = zeroFloorState 6 50
          from rfl]
      rw [c9AStep_eq (zeroFloorState 6 50) initSession rfl rfl
          (by rw [show updateNoiseFloor (zeroFloorState 6 50) 0 =
              zeroFloorState 7 50 from rfl]
              norm_num [zeroFloorState, adaptive_threshold_multiplier]),
        show updateNoiseFloor (zeroFloorState 6 50) 0 = zeroFloorState 7 50
          from rfl]
      rw [c9AStep_eq (zeroFloorState 7 50) initSession rfl rfl
          (by rw [show updateNoiseFloor (zeroFloorState 7 50) 0 =
              zeroFloorState 8 50 from rfl]
              norm_num [zeroFloorState, adaptive_threshold_multiplier]),
        show updateNoiseFloor (zeroFloorState 7 50) 0 = zeroFloorState 8 50
          from rfl]
      rw [c9AStep_eq (zeroFloorState 8 50) initSession rfl rfl
          (by rw [show updateNoiseFloor (zeroFloorState 8 50) 0 =
              zeroFloorState 9 50 from rfl]
              norm_num [zeroFloorState, adaptive_threshold_multiplier]),
        show updateNoiseFloor (zeroFloorState 8 50) 0 = zeroFloorState 9 50
          from rfl]
      rw [c9AStep_eq (zeroFloorState 9 50) initSession rfl rfl
          (by rw [e10]
              norm_num [zeroFloorState, adaptive_threshold_multiplier]),
        e10]
      rw [c9AStep_eq (zeroFloorState 10 45) initSession rfl rfl
          (by rw [e11]
              norm_num [zeroFloorState, adaptive_threshold_multiplier]),
        e11]
      rw [c9AStep_eq (zeroFloorState 11 (81/2)) initSession rfl rfl
          (by rw [e12]
              norm_num [zeroFloorState, adaptive_threshold_multiplier]),
        e12]
    rw [hA]
    have hgateB : ¬ (100:ℚ) <
        (updateNoiseFloor (zeroFloorState 12 (729/20)) 100).noise_floor *
          adaptive_threshold_multiplier := by
      rw [show updateNoiseFloor (zeroFloorState 12 (729/20)) 100 =
          { noise_floor := 9/10 * (729/20) +
              1/10 * percentile25 (List.replicate 12 0 ++ [100]),
            noise_samples := List.replicate 12 0 ++ [100],
            speech_frames := [], silence_frames := [], vadOk := true }
          from rfl,
        percentile25_replicate_concat 12 0 100 (by norm_num)
          (by norm_num)]
      norm_num [adaptive_threshold_multiplier]
    rw [show ((zeroFloorState 12 (729/20), initSession) :
        AudioState × Session).1 = zeroFloorState 12 (729/20) from rfl]
    rw [handleAudioChunk_tone (zeroFloorState 12 (729/20)) initSession
      100 100 0 rfl (by norm_num) (by norm_num) hgateB rfl rfl]
    exact List.cons_ne_nil _ _

/-- **C9, amended.**  The estimator state is a single process-wide
instance: `handle_audio_chunk` consults and updates the module-level
`audio_service` state, and the resulting estimator state does not depend
on which session's record handled the chunk (so two sessions share one
estimator; the counterexample exhibits the resulting cross-session
interference). -/
theorem c9_shared_estimator (shared : AudioState) (sA sB : Session)
    (audioBytes : List Nat) (rms : ℚ) (vad : Nat → Option Bool)
    (now : ℚ) :
    (handleAudioChunk shared sA audioBytes rms vad now).1 =
      (handleAudioChunk shared sB audioBytes rms vad now).1 := by
  rw [handleAudioChunk_fst, handleAudioChunk_fst]

/-! ### C10: behaviour while the VAD engine is unavailable -/

theorem handleAudioChunk_noVad (shared : AudioState) (s : Session)
    (audioBytes : List Nat) (rms : ℚ) (vad : Nat → Option Bool) (now : ℚ)
    (hv : shared.vadOk = false) (hbuf : s.audio_buffer = []) :
    handleAudioChunk shared s audioBytes rms vad now =
      (shared, s, none) := by
  unfold handleAudioChunk
  rw [process_audio_chunk_noVad shared audioBytes rms vad hv]
  cases hls : s.last_speech_time with
  | none => rfl
  | some t0 =>
    show (if s.audio_buffer ≠ [] ∧ now - t0 ≥ s.speech_timeout
      then (((audioBytes, false), shared, 0).2.1, processBuffered s)
      else (((audioBytes, false), shared, 0).2.1, s, none)) = _
    rw [if_neg (fun hc => hc.1 hbuf)]

theorem runOp_inert (shared : AudioState) (s : Session) (op : SessOp)
    (hv : shared.vadOk = false) (hbuf : s.audio_buffer = []) :
    runOp (shared, s) op = ((shared, s), none) := by
  cases op with
  | chunk audioBytes rms vad now =>
    unfold runOp
    show (((handleAudioChunk shared s audioBytes rms vad now).1,
        (handleAudioChunk shared s audioBytes rms vad now).2.1),
      (handleAudioChunk shared s audioBytes rms vad now).2.2) = _
    rw [handleAudioChunk_noVad shared s audioBytes rms vad now hv hbuf]
  | transcribe =>
    unfold runOp
    show ((shared, (handleTranscriptionRequest s).1),
      (handleTranscriptionRequest s).2) = _
    unfold handleTranscriptionRequest
    rw [if_pos hbuf]
  | tick now =>
    unfold runOp
    show ((shared, (watchdogTick s now).1), (watchdogTick s now).2) = _
    unfold watchdogTick
    cases hls : s.last_speech_time with
    | none => rfl
    | some t0 =>
      show ((shared,
        (if s.audio_buffer ≠ [] ∧ now - t0 ≥ s.speech_timeout
          then processBuffered s else (s, none)).1),
        (if s.audio_buffer ≠ [] ∧ now - t0 ≥ s.speech_timeout
          then processBuffered s else (s, none)).2) = _
      rw [if_neg (fun hc => hc.1 hbuf)]

/-- **C10.**  With the VAD engine unavailable, `process_audio_chunk`
returns every chunk unmodified with `has_speech = false`, leaving the
service state untouched and never calling `is_speech`; consequently,
starting from any session with an empty buffer, any sequence of audio
chunks, manual transcription requests and watchdog ticks leaves the
buffer empty and dispatches nothing to the transcription service. -/
theorem c10_vad_unavailable :
    (∀ (st : AudioState) (audioBytes : List Nat) (rms : ℚ)
        (vad : Nat → Option Bool), st.vadOk = false →
      process_audio_chunk st audioBytes rms vad =
        ((audioBytes, false), st, 0)) ∧
    (∀ (shared : AudioState) (s : Session) (ops : List SessOp),
      shared.vadOk = false → s.audio_buffer = [] →
      (runOps (shared, s) ops).1.2.audio_buffer = [] ∧
        ∀ d ∈ (runOps (shared, s) ops).2, d = none) := by
  refine ⟨process_audio_chunk_noVad, ?_⟩
  intro shared s ops hv hbuf
  induction ops with
  | nil => exact ⟨hbuf, fun d hd => absurd hd (List.not_mem_nil d)⟩
  | cons op ops ih =>
    show ((runOps (runOp (shared, s) op).1 ops).1.2.audio_buffer = [] ∧
      ∀ d ∈ (runOp (shared, s) op).2 ::
        (runOps (runOp (shared, s) op).1 ops).2, d = none)
    rw [runOp_inert shared s op hv hbuf]
    exact ⟨ih.1, fun d hd => by
      rcases List.mem_cons.mp hd with h | h
      · exact h
      · exact ih.2 d h⟩

/-- **C10, witness.**  The law applied with a failed-initialisation
service state, a fresh session and a three-operation run. -/
theorem c10_vad_unavailable_witness :
    (process_audio_chunk
      { noise_floor := 50, noise_samples := [], speech_frames := [],
        silence_frames := [], vadOk := false } [1, 2] 5 vadAlways =
      (([1, 2], false),
       ({ noise_floor := 50, noise_samples := [], speech_frames := [],
          silence_frames := [], vadOk := false } : AudioState), 0)) ∧
    ((runOps
      ({ noise_floor := 50, noise_samples := [], speech_frames := [],
         silence_frames := [], vadOk := false }, initSession)
      [SessOp.chunk [1, 2] 5 vadAlways 0, SessOp.transcribe,
        SessOp.tick 9]).1.2.audio_buffer = [] ∧
      ∀ d ∈ (runOps
        ({ noise_floor := 50, noise_samples := [], speech_frames := [],
           silence_frames := [], vadOk := false }, initSession)
        [SessOp.chunk [1, 2] 5 vadAlways 0, SessOp.transcribe,
          SessOp.tick 9]).2, d = none) :=
  ⟨c10_vad_unavailable.1
      { noise_floor := 50, noise_samples := [], speech_frames := [],
        silence_frames := [], vadOk := false } [1, 2] 5 vadAlways rfl,
   c10_vad_unavailable.2
      { noise_floor := 50, noise_samples := [], speech_frames := [],
        silence_frames := [], vadOk := false } initSession
      [SessOp.chunk [1, 2] 5 vadAlways 0, SessOp.transcribe,
        SessOp.tick 9] rfl rfl⟩

end AIConvo
